import Mathlib

/-!
Shallow embedding of the entity-simulation engines of the Marco repository.

Two engines are embedded, each from its own sources:

* the Pac-Man 3D game logic: the `usePacmanGame` hook (pellet/power-pellet/
  ghost-eaten/player-hit handlers, scoring and combo state) and the per-frame
  `GameLogic` update (ghost steering, collision dispatch, scatter/chase mode
  schedule);
* the Marco Polo 2D engine: `updateEngine` with the player, fish-AI, effects
  and collision subsystems it orchestrates.

JavaScript numbers are modelled as real numbers.  Every `Math.random()` draw
and every randomly generated id string is modelled as an explicit oracle
input (one oracle field per call site), so the embedded functions are total
deterministic functions of state plus oracle.
-/

noncomputable section

namespace Pac

/-- Ghost behavior mode, from `types/threeGame.ts`. -/
inductive GhostMode
  | scatter
  | chase
  | frightened
  | eaten
deriving DecidableEq, Repr

/-- Game status of the Pac-Man variant, from `types/threeGame.ts`. -/
inductive GameStatus
  | ready
  | playing
  | paused
  | won
  | lost
deriving DecidableEq, Repr

/-- A three.js `Vector3` value. -/
structure Vec3 where
  x : ℝ
  y : ℝ
  z : ℝ

/-- Arena bounds, from `Bounds3D` (the optional `y` field is unused by the logic). -/
structure Bounds3 where
  x : ℝ
  z : ℝ

/-- Ghost entity state, from `GhostState` in `types/threeGame.ts` (the render
handle `group` is omitted: the simulation never reads it). -/
structure GhostState where
  id : String
  position : Vec3
  velocity : Vec3
  speed : ℝ
  baseSpeed : ℝ
  radius : ℝ
  color : String
  mode : GhostMode
  directionTimer : ℝ
  spawnDelay : ℝ
  isActive : Bool

/-- Pac-Man entity state, from `PacmanState` (render handle `mesh` omitted). -/
structure PacmanState where
  position : Vec3
  velocity : Vec3
  speed : ℝ
  radius : ℝ
  mouthAngle : ℝ
  mouthOpen : Bool
  isPoweredUp : Bool
  powerUpEndTime : ℝ

/-- Pellet state, from `PelletState` (render handle omitted). -/
structure PelletState where
  id : String
  position : Vec3
  isEaten : Bool

/-- Power-pellet state, from `PowerPelletState` (render handle omitted). -/
structure PowerPelletState where
  id : String
  position : Vec3
  isEaten : Bool

/- Scoring constants `SCORES` from `constants/index.ts`. -/
namespace SCORES

def pellet : ℝ := 10

def powerPellet : ℝ := 50

def ghost : ℝ := 200

def levelComplete : ℝ := 1000

end SCORES

/-- The game-play state owned by the `usePacmanGame` hook: the mutable refs
(`pacman`, pellet/power-pellet/ghost lists) together with the React state
cells (score, lives, level, status, counters, combo display). -/
structure PacGame where
  pacman : PacmanState
  pellets : List PelletState
  powerPellets : List PowerPelletState
  ghosts : List GhostState
  score : ℝ
  lives : ℤ
  level : ℕ
  gameStatus : GameStatus
  pelletsEaten : ℕ
  ghostsEatenCombo : ℕ
  comboDisplay : Option (ℝ × ℕ)

/-- Replacement of the first element satisfying `p`: this is how a JavaScript
`array.find(...)` followed by in-place mutation of the found object acts on
the containing array. -/
def updateFirst (p : α → Bool) (f : α → α) : List α → List α
  | [] => []
  | a :: as => if p a then f a :: as else a :: updateFirst p f as

/-- Handler `handlePelletEaten` from the `usePacmanGame` hook: a pellet that
exists and is not yet eaten is removed from the list, the pellet score is
added and the eaten counter advanced. -/
def handlePelletEaten (S : PacGame) (pelletId : String) : PacGame :=
  match S.pellets.find? (fun p => p.id == pelletId) with
  | none => S
  | some pellet =>
    if pellet.isEaten then S
    else
      { S with
        pellets := S.pellets.filter (fun p => p.id != pelletId),
        score := S.score + SCORES.pellet,
        pelletsEaten := S.pelletsEaten + 1 }

/-- Handler `handlePowerPelletEaten` from the `usePacmanGame` hook: a fresh
power pellet is removed, the power-pellet score added, the ghost-eaten combo
reset to zero, the power-up activated until `now + frightenedDuration`
(`now` models `Date.now()`), and every active non-eaten ghost is switched to
frightened mode at half its base speed. -/
def handlePowerPelletEaten (frightenedDuration : ℝ) (now : ℝ) (S : PacGame)
    (powerPelletId : String) : PacGame :=
  match S.powerPellets.find? (fun p => p.id == powerPelletId) with
  | none => S
  | some powerPellet =>
    if powerPellet.isEaten then S
    else
      { S with
        powerPellets := S.powerPellets.filter (fun p => p.id != powerPelletId),
        score := S.score + SCORES.powerPellet,
        ghostsEatenCombo := 0,
        pacman := { S.pacman with isPoweredUp := true, powerUpEndTime := now + frightenedDuration },
        ghosts := S.ghosts.map (fun g =>
          if g.isActive ∧ g.mode ≠ GhostMode.eaten then
            { g with mode := GhostMode.frightened, speed := g.baseSpeed * 0.5 }
          else g) }

/-- Synchronous part of the handler `handleGhostEaten` from the
`usePacmanGame` hook: when the ghost is found and is frightened, its mode is
set to eaten, `SCORES.ghost * 2 ^ ghostsEatenCombo` points are awarded, the
combo counter advances and the combo display is shown.  The delayed respawn
scheduled with `setTimeout` is modelled separately by
`ghostRespawnAfterEaten`; the delayed clearing of the combo display is pure
presentation and is not modelled. -/
def handleGhostEaten (S : PacGame) (ghostId : String) : PacGame :=
  match S.ghosts.find? (fun g => g.id == ghostId) with
  | none => S
  | some ghost =>
    if ghost.mode ≠ GhostMode.frightened then S
    else
      let comboMultiplier : ℝ := 2 ^ S.ghostsEatenCombo
      let points : ℝ := SCORES.ghost * comboMultiplier
      { S with
        ghosts := updateFirst (fun g => g.id == ghostId)
          (fun g => { g with mode := GhostMode.eaten }) S.ghosts,
        score := S.score + points,
        ghostsEatenCombo := S.ghostsEatenCombo + 1,
        comboDisplay := some (points, S.ghostsEatenCombo + 1) }

/-- Respawn callback scheduled by `handleGhostEaten` (a `setTimeout` of
2000 ms): the ghost is repositioned on the arena edge at a random angle
(an oracle input) and its mode and speed are chosen from the power state at
the time the callback runs.  The JavaScript callback mutates the captured
ghost object; with distinct ghost ids this is replacement of the first
list entry with that id. -/
def ghostRespawnAfterEaten (bounds : Bounds3) (S : PacGame) (ghostId : String)
    (angle : ℝ) : PacGame :=
  let spawnDist := min bounds.x bounds.z - 2
  { S with
    ghosts := updateFirst (fun g => g.id == ghostId)
      (fun g =>
        { g with
          position := ⟨Real.cos angle * spawnDist, 0.6, Real.sin angle * spawnDist⟩,
          mode := if S.pacman.isPoweredUp then GhostMode.frightened else GhostMode.chase,
          speed := if S.pacman.isPoweredUp then g.baseSpeed * 0.5 else g.baseSpeed })
      S.ghosts }

/-- Handler `handlePlayerHit` from the `usePacmanGame` hook: no effect while
powered up; otherwise one life is lost, and either the game is lost (at zero
or fewer lives) or the player and all ghosts are reset to their spawn
positions with every ghost in scatter mode. -/
def handlePlayerHit (bounds : Bounds3) (S : PacGame) : PacGame :=
  if S.pacman.isPoweredUp then S
  else
    let newLives := S.lives - 1
    if newLives ≤ 0 then
      { S with lives := newLives, gameStatus := GameStatus.lost }
    else
      let n := S.ghosts.length
      let spawnDist := min bounds.x bounds.z - 2
      { S with
        lives := newLives,
        pacman := { S.pacman with position := ⟨0, 0.5, 0⟩, velocity := ⟨0, 0, 0⟩ },
        ghosts := (S.ghosts.enum).map (fun p =>
          let angle := (p.1 : ℝ) / (n : ℝ) * (Real.pi * 2)
          { p.2 with
            position := ⟨Real.cos angle * spawnDist, 0.6, Real.sin angle * spawnDist⟩,
            mode := GhostMode.scatter }) }

/-- Power-up expiry check from the start of the `GameLogic` frame update:
once `Date.now()` passes `powerUpEndTime`, the power-up ends and every
frightened ghost reverts to chase mode at its base speed. -/
def powerExpiryCheck (S : PacGame) (now : ℝ) : PacGame :=
  if S.pacman.isPoweredUp ∧ now > S.pacman.powerUpEndTime then
    { S with
      pacman := { S.pacman with isPoweredUp := false },
      ghosts := S.ghosts.map (fun g =>
        if g.mode = GhostMode.frightened then
          { g with mode := GhostMode.chase, speed := g.baseSpeed }
        else g) }
  else S

/-- Vector addition on `Vector3`. -/
def vadd (a b : Vec3) : Vec3 := ⟨a.x + b.x, a.y + b.y, a.z + b.z⟩

/-- Vector subtraction on `Vector3`. -/
def vsub (a b : Vec3) : Vec3 := ⟨a.x - b.x, a.y - b.y, a.z - b.z⟩

/-- Scalar multiplication on `Vector3`. -/
def vscale (v : Vec3) (s : ℝ) : Vec3 := ⟨v.x * s, v.y * s, v.z * s⟩

/-- Squared length of a `Vector3` (`lengthSq`). -/
def vlengthSq (v : Vec3) : ℝ := v.x * v.x + v.y * v.y + v.z * v.z

/-- Length of a `Vector3` (`length`). -/
def vlength (v : Vec3) : ℝ := Real.sqrt (vlengthSq v)

/-- Normalization from three.js: `divideScalar(this.length() || 1)`, so the
zero vector stays zero. -/
def vnormalize (v : Vec3) : Vec3 :=
  vscale v (1 / (if vlength v = 0 then 1 else vlength v))

/-- Length clamping from three.js `Vector3.clampLength`:
`divideScalar(length || 1).multiplyScalar(max(min, Math.min(max, length)))`. -/
def clampLength (v : Vec3) (lo hi : ℝ) : Vec3 :=
  let l := vlength v
  vscale (vscale v (1 / (if l = 0 then 1 else l))) (max lo (min hi l))

/-- Component-wise linear interpolation from three.js `Vector3.lerp`. -/
def vlerp (a b : Vec3) (t : ℝ) : Vec3 :=
  ⟨a.x + (b.x - a.x) * t, a.y + (b.y - a.y) * t, a.z + (b.z - a.z) * t⟩

/-- Scalar clamp helper from `GameLogic.tsx`:
`Math.min(Math.max(value, min), max)`. -/
def jsClamp (value lo hi : ℝ) : ℝ := min (max value lo) hi

/-- Remainder as computed by the JavaScript `%` operator for a nonnegative
dividend and positive divisor (the only use site has both). -/
def jsMod (a b : ℝ) : ℝ := a - b * (⌊a / b⌋ : ℤ)

/-- Personality-based ghost targeting, from `getGhostTargetPosition` in
`GameLogic.tsx`: direct chaser, ambusher (four units ahead of the player
when the player is moving), flanker (three units to the side), and the shy
ghost that chases when far and retreats to a corner when close. -/
def getGhostTargetPosition (ghost : GhostState) (ghostIndex : ℕ)
    (pacmanPos pacmanVel : Vec3) (bounds : Bounds3) : Vec3 :=
  let personality := ghostIndex % 4
  if personality = 0 then pacmanPos
  else if personality = 1 then
    if vlengthSq pacmanVel > 0.01 then
      vadd pacmanPos (vscale (vnormalize pacmanVel) 4)
    else pacmanPos
  else if personality = 2 then
    vadd pacmanPos (vscale (vnormalize ⟨-pacmanVel.z, 0, pacmanVel.x⟩) 3)
  else
    let distToPlayer := vlength (vsub ghost.position pacmanPos)
    if distToPlayer > 8 then pacmanPos
    else
      ⟨if ghost.position.x > 0 then bounds.x - 2 else -bounds.x + 2, 0.6,
       if ghost.position.z > 0 then bounds.z - 2 else -bounds.z + 2⟩

/-- Scatter-target corner assigned by ghost index, from the corner array in
the scatter branch of `GameLogic.tsx` (indexed by `index % 4`). -/
def scatterCorner (bounds : Bounds3) (i : ℕ) : ℝ × ℝ :=
  if i % 4 = 0 then (bounds.x - 2, -bounds.z + 2)
  else if i % 4 = 1 then (-bounds.x + 2, -bounds.z + 2)
  else if i % 4 = 2 then (bounds.x - 2, bounds.z - 2)
  else (-bounds.x + 2, bounds.z - 2)

/-- Oracle for the random draws of one ghost frame step: the direction-timer
reset `randomBetween(0.8, 1.5)` and the chase/frightened jitter draws. -/
structure GhostRand where
  dirTimerReset : ℝ
  chaseJitterX : ℝ
  chaseJitterZ : ℝ
  frightJitterX : ℝ
  frightJitterZ : ℝ

/-- Direction-decision step of the ghost frame update (`GameLogic.tsx`):
the direction timer runs down by `dt`, and when it elapses it is reset to a
random value and the ghost velocity is recomputed from its mode (personality
target in chase, assigned corner in scatter, directly away from the player
at reduced speed in frightened, each with its jitter). -/
def ghostDecideVelocity (g : GhostState) (i : ℕ) (pac : PacmanState)
    (bounds : Bounds3) (dt : ℝ) (ρ : GhostRand) : GhostState :=
  let g := { g with directionTimer := g.directionTimer - dt }
  if g.directionTimer ≤ 0 then
    let g := { g with directionTimer := ρ.dirTimerReset }
    if g.mode = GhostMode.chase then
      let targetPos := getGhostTargetPosition g i pac.position pac.velocity bounds
      let toPlayer := vscale (vnormalize (vsub targetPos g.position)) g.speed
      { g with velocity := ⟨toPlayer.x + ρ.chaseJitterX, toPlayer.y, toPlayer.z + ρ.chaseJitterZ⟩ }
    else if g.mode = GhostMode.scatter then
      let corner := scatterCorner bounds i
      { g with velocity := vscale (vnormalize ⟨corner.1 - g.position.x, 0, corner.2 - g.position.z⟩) g.speed }
    else if g.mode = GhostMode.frightened then
      let toPlayer := vscale (vnormalize (vsub g.position pac.position)) (g.speed * 0.6)
      { g with velocity := ⟨toPlayer.x + ρ.frightJitterX, toPlayer.y, toPlayer.z + ρ.frightJitterZ⟩ }
    else g
  else g

/-- Combined wander vector of the ghost frame update (`GameLogic.tsx`):
the current velocity plus the sinusoidal wander term (stronger while
frightened, driven by the scene clock), biased inward near the arena edges
(soft repulsion proportional to the penetration past a buffer of 2), with
the `y` component zeroed. -/
def ghostCombinedWander (g : GhostState) (i : ℕ) (clockTime : ℝ)
    (bounds : Bounds3) : Vec3 :=
  let wanderStrength : ℝ := if g.mode = GhostMode.frightened then 0.5 else 0.2
  let wx := g.velocity.x + Real.sin (clockTime * 2.5 + (i : ℝ) * 1.7) * wanderStrength
  let wz := g.velocity.z + Real.cos (clockTime * 2 + (i : ℝ) * 1.3) * wanderStrength
  let wx := if g.position.x > bounds.x - 2 then wx - (g.position.x - (bounds.x - 2)) * 0.5 else wx
  let wx := if g.position.x < -bounds.x + 2 then wx - (g.position.x - (-bounds.x + 2)) * 0.5 else wx
  let wz := if g.position.z > bounds.z - 2 then wz - (g.position.z - (bounds.z - 2)) * 0.5 else wz
  let wz := if g.position.z < -bounds.z + 2 then wz - (g.position.z - (-bounds.z + 2)) * 0.5 else wz
  ⟨wx, 0, wz⟩

/-- Movement application of the ghost frame update (`GameLogic.tsx`): the
combined wander vector is length-clamped into `[speed * 0.5, speed]`, lerped
into the velocity (faster response while frightened), and the position
integrated by `dt` and clamped to the arena bounds. -/
def ghostApplyWander (g : GhostState) (i : ℕ) (clockTime dt : ℝ)
    (bounds : Bounds3) : GhostState :=
  let wander := clampLength (ghostCombinedWander g i clockTime bounds) (g.speed * 0.5) g.speed
  let lerpFactor : ℝ := if g.mode = GhostMode.frightened then 0.15 else 0.12
  let vel := vlerp g.velocity wander lerpFactor
  let pos := vadd g.position (vscale vel dt)
  { g with
    velocity := vel,
    position := ⟨jsClamp pos.x (-bounds.x + g.radius) (bounds.x - g.radius), pos.y,
                 jsClamp pos.z (-bounds.z + g.radius) (bounds.z - g.radius)⟩ }

/-- Collision outcome reported by one ghost frame step to the hook
callbacks. -/
inductive GhostSignal
  | quiet
  | ateGhost
  | hitPlayer
deriving DecidableEq, Repr

/-- Scatter/chase mode schedule from the tail of the ghost frame update in
`GameLogic.tsx`, driven by the elapsed round time in seconds. -/
def ghostModeSchedule (cycleTime : ℝ) : GhostMode :=
  if cycleTime < 7 then GhostMode.scatter
  else if cycleTime < 27 then GhostMode.chase
  else if cycleTime < 34 then GhostMode.scatter
  else if cycleTime < 54 then GhostMode.chase
  else if cycleTime < 59 then GhostMode.scatter
  else if jsMod (cycleTime - 59) 25 < 5 then GhostMode.scatter
  else GhostMode.chase

/-- One ghost step of the `GameLogic` frame update: spawn-delay activation;
early exit for inactive or eaten ghosts; direction decision; wander, length
clamp, velocity lerp and integration; collision with the player (reported as
a signal; the synchronous local effect of a defeat, setting this ghost's
mode to eaten as done by `handleGhostEaten` through the shared reference, is
applied in place, assuming distinct ghost ids); and finally the
scatter/chase schedule for every ghost not in frightened mode.  `elapsed` is
the round time in milliseconds; `clockTime` is the scene clock in seconds. -/
def updateGhostFrame (g : GhostState) (i : ℕ) (pac : PacmanState)
    (bounds : Bounds3) (elapsed dt clockTime : ℝ) (ρ : GhostRand) :
    GhostState × GhostSignal :=
  let g := if ¬ g.isActive ∧ elapsed > g.spawnDelay then { g with isActive := true } else g
  if ¬ g.isActive ∨ g.mode = GhostMode.eaten then (g, GhostSignal.quiet)
  else
    let g := ghostDecideVelocity g i pac bounds dt ρ
    let g := ghostApplyWander g i clockTime dt bounds
    let collisionDist := pac.radius + g.radius - 0.1
    let distToPlayer :=
      Real.sqrt ((g.position.x - pac.position.x) ^ 2 + (g.position.z - pac.position.z) ^ 2)
    let res :=
      if distToPlayer < collisionDist then
        if g.mode = GhostMode.frightened then
          ({ g with mode := GhostMode.eaten }, GhostSignal.ateGhost)
        else (g, GhostSignal.hitPlayer)
      else (g, GhostSignal.quiet)
    if res.1.mode ≠ GhostMode.frightened then
      ({ res.1 with mode := ghostModeSchedule (elapsed / 1000) }, res.2)
    else res

/-- Ghost-player collision dispatch from `GameLogic.tsx` combined with the
hook callbacks: at overlap (`Math.hypot` of the horizontal offsets below the
radius sum minus 0.1), a frightened ghost is defeated through
`handleGhostEaten` and any other ghost costs the player a hit through
`handlePlayerHit`. -/
def resolveGhostPacmanCollision (bounds : Bounds3) (S : PacGame)
    (g : GhostState) : PacGame :=
  let collisionDist := S.pacman.radius + g.radius - 0.1
  let distToPlayer :=
    Real.sqrt ((g.position.x - S.pacman.position.x) ^ 2 + (g.position.z - S.pacman.position.z) ^ 2)
  if distToPlayer < collisionDist then
    if g.mode = GhostMode.frightened then handleGhostEaten S g.id
    else handlePlayerHit bounds S
  else S

end Pac

namespace Marco

/-- A 2D vector, from `Vector2D` in the Marco Polo type definitions. -/
structure Vec2 where
  x : ℝ
  y : ℝ

/-- Screen state of the Marco Polo game. -/
inductive GameScreen
  | menu
  | playing
  | paused
  | gameOver
deriving DecidableEq, Repr

/-- Difficulty levels. -/
inductive Difficulty
  | easy
  | medium
  | hard
deriving DecidableEq, Repr

/-- Fish AI behavior states. -/
inductive FishBehavior
  | idle
  | swimming
  | fleeing
  | responding
deriving DecidableEq, Repr

/-- Fish size classes. -/
inductive FishSize
  | small
  | medium
  | large
deriving DecidableEq, Repr

/-- Circle for collision detection, from `utils/math.ts`. -/
structure Circle where
  x : ℝ
  y : ℝ
  radius : ℝ

/-- Vector addition (`vecAdd`). -/
def vecAdd (a b : Vec2) : Vec2 := ⟨a.x + b.x, a.y + b.y⟩

/-- Vector subtraction (`vecSub`). -/
def vecSub (a b : Vec2) : Vec2 := ⟨a.x - b.x, a.y - b.y⟩

/-- Scalar multiplication (`vecScale`). -/
def vecScale (v : Vec2) (s : ℝ) : Vec2 := ⟨v.x * s, v.y * s⟩

/-- Vector magnitude (`vecMagnitude`). -/
def vecMagnitude (v : Vec2) : ℝ := Real.sqrt (v.x * v.x + v.y * v.y)

/-- Squared magnitude (`vecMagnitudeSq`). -/
def vecMagnitudeSq (v : Vec2) : ℝ := v.x * v.x + v.y * v.y

/-- Normalization (`vecNormalize`): returns the zero vector at zero
magnitude, never divides by zero. -/
def vecNormalize (v : Vec2) : Vec2 :=
  if vecMagnitude v = 0 then ⟨0, 0⟩
  else ⟨v.x / vecMagnitude v, v.y / vecMagnitude v⟩

/-- Distance between two points (`vecDistance`). -/
def vecDistance (a b : Vec2) : ℝ := vecMagnitude (vecSub b a)

/-- Squared distance (`vecDistanceSq`). -/
def vecDistanceSq (a b : Vec2) : ℝ := vecMagnitudeSq (vecSub b a)

/-- Angle of a vector (`vecAngle`, `Math.atan2(y, x)`), modelled as the
principal argument of the complex number `x + y i`. -/
def vecAngle (v : Vec2) : ℝ := Complex.arg ⟨v.x, v.y⟩

/-- Scalar linear interpolation (`lerp`). -/
def lerp (a b t : ℝ) : ℝ := a + (b - a) * t

/-- Scalar clamp (`clamp`): `Math.max(min, Math.min(max, value))`. -/
def clamp (value lo hi : ℝ) : ℝ := max lo (min hi value)

/-- Circle-circle collision test (`circlesCollide`), on squared distance. -/
def circlesCollide (a b : Circle) : Bool :=
  decide (vecDistanceSq ⟨a.x, a.y⟩ ⟨b.x, b.y⟩ ≤ (a.radius + b.radius) * (a.radius + b.radius))

/- Canvas dimensions and boundary constants from `constants/index.ts`. -/

def CANVAS_WIDTH : ℝ := 800

def CANVAS_HEIGHT : ℝ := 600

def BOUNDARY_PADDING : ℝ := 10

/- Game boundaries `GAME_BOUNDS` from `constants/index.ts`. -/
namespace GAME_BOUNDS

def minX : ℝ := BOUNDARY_PADDING

def minY : ℝ := BOUNDARY_PADDING

def maxX : ℝ := CANVAS_WIDTH - BOUNDARY_PADDING

def maxY : ℝ := CANVAS_HEIGHT - BOUNDARY_PADDING

end GAME_BOUNDS

/- Player constants `PLAYER` from `constants/index.ts`. -/
namespace PLAYER

def radius : ℝ := 20

def collisionDamping : ℝ := 0.5

end PLAYER

/- Fish constants `FISH` from `constants/index.ts`. -/
namespace FISH

/-- Collision radius of each fish size (`FISH.sizes[size].radius`). -/
def sizesRadius : FishSize → ℝ
  | FishSize.small => 12
  | FishSize.medium => 16
  | FishSize.large => 22

/-- Point value of each fish size (`FISH.sizes[size].points`). -/
def sizesPoints : FishSize → ℝ
  | FishSize.small => 150
  | FishSize.medium => 100
  | FishSize.large => 75

def swimDirectionChangeChance : ℝ := 0.02

def idleChance : ℝ := 0.3

end FISH

/- Scoring constants `SCORING` from `constants/index.ts`. -/
namespace SCORING

def basePointsPerFish : ℝ := 100

def speedBonusMultiplier : ℝ := 2

def comboMultiplier : ℝ := 0.5

def maxComboMultiplier : ℝ := 3

def comboDuration : ℝ := 5000

def wallPenalty : ℝ := 10

end SCORING

/- Effect constants `EFFECTS` from `constants/index.ts` (the fields the
update functions read). -/
namespace EFFECTS

def soundWaveExpansionSpeed : ℝ := 400

def soundWaveFadeStartPercent : ℝ := 0.6

def poloBubbleDuration : ℝ := 1500

def poloBubbleFloatSpeed : ℝ := 30

def rippleExpansionSpeed : ℝ := 80

def rippleMaxRadius : ℝ := 60

def rippleDuration : ℝ := 800

end EFFECTS

/-- Per-difficulty game configuration, from `GameConfig`. -/
structure GameConfig where
  gameDuration : ℝ
  fishCount : ℕ
  playerSpeed : ℝ
  fishSpeed : ℝ
  visionRadius : ℝ
  marcoWaveRadius : ℝ
  marcoWaveDuration : ℝ
  marcoCooldown : ℝ
  maxMarcoCalls : ℤ
  fishFleeSpeed : ℝ
  fishFleeDistance : ℝ

/-- The easy configuration from `DIFFICULTY_CONFIG`. -/
def configEasy : GameConfig :=
  { gameDuration := 90, fishCount := 5, playerSpeed := 180, fishSpeed := 60,
    visionRadius := 120, marcoWaveRadius := 300, marcoWaveDuration := 2000,
    marcoCooldown := 2000, maxMarcoCalls := 15, fishFleeSpeed := 100,
    fishFleeDistance := 150 }

/-- The medium configuration from `DIFFICULTY_CONFIG`. -/
def configMedium : GameConfig :=
  { gameDuration := 75, fishCount := 7, playerSpeed := 160, fishSpeed := 80,
    visionRadius := 100, marcoWaveRadius := 250, marcoWaveDuration := 1500,
    marcoCooldown := 2500, maxMarcoCalls := 12, fishFleeSpeed := 120,
    fishFleeDistance := 180 }

/-- The hard configuration from `DIFFICULTY_CONFIG`. -/
def configHard : GameConfig :=
  { gameDuration := 60, fishCount := 10, playerSpeed := 140, fishSpeed := 100,
    visionRadius := 80, marcoWaveRadius := 200, marcoWaveDuration := 1000,
    marcoCooldown := 3000, maxMarcoCalls := 10, fishFleeSpeed := 150,
    fishFleeDistance := 220 }

/-- Keyboard intent structure, from `KeyboardState`. -/
structure KeyboardState where
  up : Bool
  down : Bool
  left : Bool
  right : Bool
  space : Bool
  escape : Bool
  enter : Bool

/-- Player entity state, from `PlayerState`. -/
structure PlayerState where
  id : String
  position : Vec2
  velocity : Vec2
  radius : ℝ
  isActive : Bool
  isCalling : Bool
  callCooldownRemaining : ℝ
  lastCallTime : ℝ
  facingAngle : ℝ

/-- Fish entity state, from `FishState`. -/
structure FishState where
  id : String
  position : Vec2
  velocity : Vec2
  radius : ℝ
  isActive : Bool
  isCaught : Bool
  isRevealed : Bool
  revealedUntil : ℝ
  baseSpeed : ℝ
  currentBehavior : FishBehavior
  behaviorTimer : ℝ
  targetPosition : Option Vec2
  color : String
  size : FishSize

/-- Sound-wave effect record. -/
structure SoundWave where
  id : String
  origin : Vec2
  currentRadius : ℝ
  maxRadius : ℝ
  opacity : ℝ
  color : String
  startTime : ℝ

/-- Polo-bubble effect record. -/
structure PoloBubble where
  id : String
  position : Vec2
  text : String
  opacity : ℝ
  offsetY : ℝ
  startTime : ℝ

/-- Particle effect record. -/
structure Particle where
  id : String
  position : Vec2
  velocity : Vec2
  color : String
  size : ℝ
  life : ℝ
  decay : ℝ

/-- Ripple effect record. -/
structure Ripple where
  id : String
  position : Vec2
  radius : ℝ
  maxRadius : ℝ
  opacity : ℝ
  startTime : ℝ

/-- Score-popup effect record. -/
structure ScorePopup where
  id : String
  position : Vec2
  points : ℝ
  opacity : ℝ
  offsetY : ℝ
  scale : ℝ
  startTime : ℝ

/-- The visual-effects collections, from `Effects`. -/
structure Effects where
  soundWaves : List SoundWave
  poloBubbles : List PoloBubble
  particles : List Particle
  ripples : List Ripple
  scorePopups : List ScorePopup

/-- Empty effects state (`createEffects`). -/
def createEffects : Effects := ⟨[], [], [], [], []⟩

/-- Main game state, from `GameState`. -/
structure GameState where
  screen : GameScreen
  score : ℝ
  highScore : ℝ
  timeRemaining : ℝ
  fishCaught : ℕ
  totalFish : ℕ
  marcoCallsRemaining : ℤ
  difficulty : Difficulty
  isPaused : Bool

/-- Engine state, from `EngineState` in `engine/gameEngine.ts`. -/
structure EngineState where
  gameState : GameState
  config : GameConfig
  player : PlayerState
  fish : List FishState
  effects : Effects
  lastTimestamp : ℝ
  comboCount : ℕ
  lastCatchTime : ℝ
  previousPlayerPosition : Vec2

/-- Game-over reasons of the `GAME_OVER` event. -/
inductive GameOverReason
  | timeout
  | allCaught
deriving DecidableEq, Repr

/-- Gameplay events, from `GameEvent`. -/
inductive GameEvent
  | fishCaught (fishId : String) (points : ℝ)
  | marcoCalled (position : Vec2)
  | poloResponse (fishId : String) (position : Vec2)
  | gameOver (reason : GameOverReason)
  | wallCollision (position : Vec2)
  | scoreUpdated (newScore : ℝ)

/-- Eligibility for a Marco call (`canCallMarco`): not already calling, no
cooldown remaining, and calls left. -/
def canCallMarco (player : PlayerState) (marcoCallsRemaining : ℤ) : Bool :=
  !player.isCalling && decide (player.callCooldownRemaining ≤ 0) &&
    decide (marcoCallsRemaining > 0)

/-- Marco call trigger (`triggerMarcoCall`): marks the player calling,
records the call time, and starts the cooldown. -/
def triggerMarcoCall (player : PlayerState) (config : GameConfig)
    (timestamp : ℝ) : PlayerState :=
  { player with
    isCalling := true,
    lastCallTime := timestamp,
    callCooldownRemaining := config.marcoCooldown }

/-- Player frame update (`updatePlayer` in `entities/Player.ts`): input
direction, normalization of diagonal movement, velocity lerp (factor 0.15),
position integration, wall collision with damped bounce, facing angle from
sufficient velocity, cooldown run-down, and expiry of the call animation
after 500 ms. -/
def updatePlayer (player : PlayerState) (keys : KeyboardState)
    (config : GameConfig) (deltaTime timestamp : ℝ) : PlayerState :=
  let moveDir : Vec2 :=
    ⟨(if keys.left then (-1 : ℝ) else 0) + (if keys.right then 1 else 0),
     (if keys.up then (-1 : ℝ) else 0) + (if keys.down then 1 else 0)⟩
  let moveDir := if vecMagnitude moveDir > 0 then vecNormalize moveDir else moveDir
  let speed := config.playerSpeed
  let targetVelocity := vecScale moveDir speed
  let velocityLerp : ℝ := 0.15
  let newVelocity : Vec2 :=
    ⟨player.velocity.x + (targetVelocity.x - player.velocity.x) * velocityLerp,
     player.velocity.y + (targetVelocity.y - player.velocity.y) * velocityLerp⟩
  let newPosition := vecAdd player.position (vecScale newVelocity deltaTime)
  let hitX := newPosition.x - player.radius < GAME_BOUNDS.minX ∨
    newPosition.x + player.radius > GAME_BOUNDS.maxX
  let hitY := newPosition.y - player.radius < GAME_BOUNDS.minY ∨
    newPosition.y + player.radius > GAME_BOUNDS.maxY
  let px :=
    if newPosition.x - player.radius < GAME_BOUNDS.minX then GAME_BOUNDS.minX + player.radius
    else if newPosition.x + player.radius > GAME_BOUNDS.maxX then GAME_BOUNDS.maxX - player.radius
    else newPosition.x
  let py :=
    if newPosition.y - player.radius < GAME_BOUNDS.minY then GAME_BOUNDS.minY + player.radius
    else if newPosition.y + player.radius > GAME_BOUNDS.maxY then GAME_BOUNDS.maxY - player.radius
    else newPosition.y
  let fvx := if hitX then -newVelocity.x * PLAYER.collisionDamping else newVelocity.x
  let fvy := if hitY then -newVelocity.y * PLAYER.collisionDamping else newVelocity.y
  let hitWall := hitX ∨ hitY
  let newFacingAngle :=
    if vecMagnitude newVelocity > 10 then vecAngle newVelocity else player.facingAngle
  let newCooldown := max 0 (player.callCooldownRemaining - deltaTime * 1000)
  let isCalling := player.isCalling && decide (timestamp - player.lastCallTime < 500)
  { player with
    position := ⟨px, py⟩,
    velocity := if hitWall then ⟨fvx, fvy⟩ else newVelocity,
    facingAngle := newFacingAngle,
    callCooldownRemaining := newCooldown,
    isCalling := isCalling }

/-- Oracle for the random draws of one `updateFish` call, one field per call
site.  The target offsets stand for `vecFromAngle(randomAngle(),
randomRange(100, 250))` in `getRandomSwimTarget`. -/
structure FishRand where
  fleeRoll : ℝ
  idleRoll : ℝ
  changeTargetOffset : Vec2
  newBehaviorTimer : ℝ
  swimDirRoll : ℝ
  swimDirTargetOffset : Vec2
  swimNullTargetOffset : Vec2
  fleeExitTargetOffset : Vec2

/-- Random swim target (`getRandomSwimTarget`): the current position plus a
random offset (oracle input), clamped to the canvas minus a padding of 50. -/
def getRandomSwimTarget (currentPosition : Vec2) (offset : Vec2) : Vec2 :=
  let target := vecAdd currentPosition offset
  ⟨clamp target.x 50 (CANVAS_WIDTH - 50), clamp target.y 50 (CANVAS_HEIGHT - 50)⟩

/-- Fish behavior change (`changeBehavior`): more likely to flee when the
player is close; otherwise idle with probability `idleChance`, else swim to
a new random target. -/
def changeBehavior (fish : FishState) (playerPosition : Vec2) (ρ : FishRand) :
    FishState :=
  let distToPlayer := vecDistance fish.position playerPosition
  if distToPlayer < 100 ∧ ρ.fleeRoll < 0.5 then
    { fish with currentBehavior := FishBehavior.fleeing }
  else if ρ.idleRoll < FISH.idleChance then
    { fish with currentBehavior := FishBehavior.idle, targetPosition := none }
  else
    { fish with
      currentBehavior := FishBehavior.swimming,
      targetPosition := some (getRandomSwimTarget fish.position ρ.changeTargetOffset) }

/-- Swimming behavior (`executeSwimming`): pick a target when none, go idle
on arrival (distance below 10), otherwise lerp the velocity (factor 0.1)
toward the normalized target direction at the fish speed. -/
def executeSwimming (fish : FishState) (config : GameConfig) (ρ : FishRand) :
    FishState :=
  match fish.targetPosition with
  | none =>
    { fish with targetPosition := some (getRandomSwimTarget fish.position ρ.swimNullTargetOffset) }
  | some tp =>
    let toTarget := vecSub tp fish.position
    let distToTarget := vecMagnitude toTarget
    if distToTarget < 10 then
      { fish with currentBehavior := FishBehavior.idle, targetPosition := none }
    else
      let direction := vecNormalize toTarget
      let speed := config.fishSpeed * fish.baseSpeed
      let targetVelocity := vecScale direction speed
      { fish with
        velocity := ⟨lerp fish.velocity.x targetVelocity.x 0.1,
                     lerp fish.velocity.y targetVelocity.y 0.1⟩ }

/-- Fleeing behavior (`executeFleeing`): exit to swimming once far enough,
otherwise lerp the velocity (factor 0.2) directly away from the player at
the flee speed. -/
def executeFleeing (fish : FishState) (playerPosition : Vec2)
    (config : GameConfig) (ρ : FishRand) : FishState :=
  let awayFromPlayer := vecSub fish.position playerPosition
  let distToPlayer := vecMagnitude awayFromPlayer
  if distToPlayer > config.fishFleeDistance then
    { fish with
      currentBehavior := FishBehavior.swimming,
      targetPosition := some (getRandomSwimTarget fish.position ρ.fleeExitTargetOffset) }
  else
    let fleeDirection := vecNormalize awayFromPlayer
    let speed := config.fishFleeSpeed * fish.baseSpeed
    let targetVelocity := vecScale fleeDirection speed
    { fish with
      velocity := ⟨lerp fish.velocity.x targetVelocity.x 0.2,
                   lerp fish.velocity.y targetVelocity.y 0.2⟩ }

/-- Hard wall clamping for fish (`handleWallCollision` in `entities/Fish.ts`). -/
def handleWallCollision (position : Vec2) (radius : ℝ) : Vec2 :=
  let nx :=
    if position.x - radius < GAME_BOUNDS.minX then GAME_BOUNDS.minX + radius
    else if position.x + radius > GAME_BOUNDS.maxX then GAME_BOUNDS.maxX - radius
    else position.x
  let ny :=
    if position.y - radius < GAME_BOUNDS.minY then GAME_BOUNDS.minY + radius
    else if position.y + radius > GAME_BOUNDS.maxY then GAME_BOUNDS.maxY - radius
    else position.y
  ⟨nx, ny⟩

/-- Fish frame update (`updateFish` in `entities/Fish.ts`): caught fish are
returned unchanged; reveal expiry, behavior timer run-down and randomized
behavior change, random mid-swim retargeting, behavior execution, velocity
integration and wall clamping. -/
def updateFish (fish : FishState) (playerPosition : Vec2) (config : GameConfig)
    (deltaTime timestamp : ℝ) (ρ : FishRand) : FishState :=
  if fish.isCaught then fish
  else
    let f := if fish.isRevealed ∧ timestamp > fish.revealedUntil then
        { fish with isRevealed := false } else fish
    let f := { f with behaviorTimer := f.behaviorTimer - deltaTime * 1000 }
    let f := if f.behaviorTimer ≤ 0 then
        { changeBehavior f playerPosition ρ with behaviorTimer := ρ.newBehaviorTimer }
      else f
    let f := if f.currentBehavior = FishBehavior.swimming ∧
        ρ.swimDirRoll < FISH.swimDirectionChangeChance then
        { f with targetPosition := some (getRandomSwimTarget f.position ρ.swimDirTargetOffset) }
      else f
    let f :=
      match f.currentBehavior with
      | FishBehavior.idle => { f with velocity := vecScale f.velocity 0.95 }
      | FishBehavior.swimming => executeSwimming f config ρ
      | FishBehavior.fleeing => executeFleeing f playerPosition config ρ
      | FishBehavior.responding => { f with velocity := vecScale f.velocity 0.9 }
    let newPosition := vecAdd f.position (vecScale f.velocity deltaTime)
    { f with position := handleWallCollision newPosition f.radius }

/-- Polo response trigger (`triggerPoloResponse`): reveals the fish until
`timestamp + marcoWaveDuration` and puts it in responding behavior with a
brief pause before fleeing. -/
def triggerPoloResponse (fish : FishState) (config : GameConfig)
    (timestamp : ℝ) : FishState :=
  if fish.isCaught then fish
  else
    { fish with
      isRevealed := true,
      revealedUntil := timestamp + config.marcoWaveDuration,
      currentBehavior := FishBehavior.responding,
      behaviorTimer := 500 }

/-- Catch marking (`catchFish`): the terminal caught state. -/
def catchFish (fish : FishState) : FishState :=
  { fish with isCaught := true, isActive := false, velocity := ⟨0, 0⟩ }

/-- Point value of a fish (`getFishPoints`). -/
def getFishPoints (fish : FishState) : ℝ := FISH.sizesPoints fish.size

/-- Player-fish collision test (`checkPlayerFishCollision` in
`systems/collision.ts`): inactive or caught fish never collide. -/
def checkPlayerFishCollision (player : PlayerState) (fish : FishState) : Bool :=
  if ¬ fish.isActive ∨ fish.isCaught then false
  else
    circlesCollide ⟨player.position.x, player.position.y, player.radius⟩
      ⟨fish.position.x, fish.position.y, fish.radius⟩

/-- Filter condition of `getFishInRadius`: active, not caught, and within
the given distance of the center. -/
def fishInRadiusB (fish : FishState) (center : Vec2) (radius : ℝ) : Bool :=
  if ¬ fish.isActive ∨ fish.isCaught then false
  else decide (vecDistance fish.position center ≤ radius)

/-- Fish within a radius (`getFishInRadius` in `systems/collision.ts`). -/
def getFishInRadius (fishArray : List FishState) (center : Vec2) (radius : ℝ) :
    List FishState :=
  fishArray.filter (fun fish => fishInRadiusB fish center radius)

/-- Sound wave creation (`createSoundWave`); the random id is an oracle
input. -/
def createSoundWave (origin : Vec2) (maxRadius timestamp : ℝ) (id : String) :
    SoundWave :=
  { id := id, origin := origin, currentRadius := 0, maxRadius := maxRadius,
    opacity := 0.8, color := "wave", startTime := timestamp }

/-- Appending a sound wave (`addSoundWave`). -/
def addSoundWave (effects : Effects) (origin : Vec2) (maxRadius timestamp : ℝ)
    (id : String) : Effects :=
  { effects with soundWaves := effects.soundWaves ++ [createSoundWave origin maxRadius timestamp id] }

/-- Polo bubble creation (`createPoloBubble`). -/
def createPoloBubble (position : Vec2) (timestamp : ℝ) (id : String) : PoloBubble :=
  { id := id, position := position, text := "POLO!", opacity := 1,
    offsetY := 0, startTime := timestamp }

/-- Appending a polo bubble (`addPoloBubble`). -/
def addPoloBubble (effects : Effects) (position : Vec2) (timestamp : ℝ)
    (id : String) : Effects :=
  { effects with poloBubbles := effects.poloBubbles ++ [createPoloBubble position timestamp id] }

/-- Appending catch particles (`addCatchParticles`); the particle list
produced by `createCatchParticles` is random (count, directions, speeds,
decay) and is therefore an oracle input. -/
def addCatchParticles (effects : Effects) (particles : List Particle) : Effects :=
  { effects with particles := effects.particles ++ particles }

/-- Ripple creation (`createRipple`). -/
def createRipple (position : Vec2) (timestamp : ℝ) (id : String) : Ripple :=
  { id := id, position := position, radius := 5,
    maxRadius := EFFECTS.rippleMaxRadius, opacity := 0.6, startTime := timestamp }

/-- Appending a ripple (`addRipple`). -/
def addRipple (effects : Effects) (position : Vec2) (timestamp : ℝ)
    (id : String) : Effects :=
  { effects with ripples := effects.ripples ++ [createRipple position timestamp id] }

/-- Score popup creation (`createScorePopup`). -/
def createScorePopup (position : Vec2) (points timestamp : ℝ) (id : String) :
    ScorePopup :=
  { id := id, position := position, points := points, opacity := 1,
    offsetY := 0, scale := 1.5, startTime := timestamp }

/-- Appending a score popup (`addScorePopup`). -/
def addScorePopup (effects : Effects) (position : Vec2) (points timestamp : ℝ)
    (id : String) : Effects :=
  { effects with scorePopups := effects.scorePopups ++ [createScorePopup position points timestamp id] }

/-- Sound-wave aging (`updateSoundWaves`): expand by the expansion speed,
fade past sixty percent of the maximum radius, drop waves at full radius. -/
def updateSoundWaves (waves : List SoundWave) (deltaTime : ℝ) : List SoundWave :=
  (waves.map (fun wave =>
    let newRadius := wave.currentRadius + EFFECTS.soundWaveExpansionSpeed * deltaTime
    let progress := newRadius / wave.maxRadius
    let opacity :=
      if progress > EFFECTS.soundWaveFadeStartPercent then
        wave.opacity * (1 - (progress - EFFECTS.soundWaveFadeStartPercent) /
          (1 - EFFECTS.soundWaveFadeStartPercent))
      else wave.opacity
    { wave with currentRadius := newRadius, opacity := opacity })).filter
    (fun wave => wave.currentRadius < wave.maxRadius)

/-- Polo-bubble aging (`updatePoloBubbles`). -/
def updatePoloBubbles (bubbles : List PoloBubble) (deltaTime timestamp : ℝ) :
    List PoloBubble :=
  (bubbles.map (fun bubble =>
    let elapsed := timestamp - bubble.startTime
    let progress := elapsed / EFFECTS.poloBubbleDuration
    { bubble with
      offsetY := bubble.offsetY - EFFECTS.poloBubbleFloatSpeed * deltaTime,
      opacity := 1 - progress })).filter
    (fun bubble => timestamp - bubble.startTime < EFFECTS.poloBubbleDuration)

/-- Particle aging (`updateParticles`): drag, gravity, decay, culling. -/
def updateParticles (particles : List Particle) (deltaTime : ℝ) : List Particle :=
  (particles.map (fun particle =>
    let newVelocity : Vec2 :=
      ⟨particle.velocity.x * 0.99, particle.velocity.y + 200 * deltaTime⟩
    { particle with
      position := ⟨particle.position.x + particle.velocity.x * deltaTime,
                   particle.position.y + particle.velocity.y * deltaTime⟩,
      velocity := newVelocity,
      life := particle.life - particle.decay * deltaTime,
      size := particle.size * (0.98 + particle.life * 0.02) })).filter
    (fun particle => particle.life > 0)

/-- Ripple aging (`updateRipples`). -/
def updateRipples (ripples : List Ripple) (deltaTime timestamp : ℝ) : List Ripple :=
  (ripples.map (fun ripple =>
    let elapsed := timestamp - ripple.startTime
    let progress := elapsed / EFFECTS.rippleDuration
    { ripple with
      radius := ripple.radius + EFFECTS.rippleExpansionSpeed * deltaTime,
      opacity := 0.6 * (1 - progress) })).filter
    (fun ripple => timestamp - ripple.startTime < EFFECTS.rippleDuration)

/-- Score-popup aging (`updateScorePopups`), with its cubic ease-out. -/
def updateScorePopups (popups : List ScorePopup) (timestamp : ℝ) : List ScorePopup :=
  (popups.map (fun popup =>
    let elapsed := timestamp - popup.startTime
    let progress := elapsed / 1200
    let easeOut := 1 - (1 - progress) ^ 3
    { popup with
      offsetY := -60 * easeOut,
      opacity := 1 - progress,
      scale := 1.5 - 0.5 * easeOut })).filter
    (fun popup => timestamp - popup.startTime < 1200)

/-- Aging of all effects (`updateEffects`). -/
def updateEffects (effects : Effects) (deltaTime timestamp : ℝ) : Effects :=
  { soundWaves := updateSoundWaves effects.soundWaves deltaTime,
    poloBubbles := updatePoloBubbles effects.poloBubbles deltaTime timestamp,
    particles := updateParticles effects.particles deltaTime,
    ripples := updateRipples effects.ripples deltaTime timestamp,
    scorePopups := updateScorePopups effects.scorePopups timestamp }

/-- Oracle for the random draws and generated ids of one `updateEngine`
call: per-fish AI draws (indexed by the position of the fish in the list),
the ripple chance draw, catch-effect contents and the generated effect
ids. -/
structure EngineRand where
  fishR : ℕ → FishRand
  rippleRoll : ℝ
  rippleId : String
  waveId : String
  bubbleId : ℕ → String
  catchParticles : ℕ → List Particle
  catchRippleId : ℕ → String
  popupId : ℕ → String

/-- Bounds check used for the wall-bump sound (`isInBounds` in
`engine/gameEngine.ts`), with a padding of 10. -/
def isInBounds (position : Vec2) (radius : ℝ) : Bool :=
  decide (position.x - radius ≥ 10) && decide (position.x + radius ≤ CANVAS_WIDTH - 10) &&
    decide (position.y - radius ≥ 10) && decide (position.y + radius ≤ CANVAS_HEIGHT - 10)

/-- Delta-time computation from the head of `updateEngine`: a fixed 0.016 on
the first frame, otherwise the timestamp difference in seconds. -/
def deltaTimeOf (state : EngineState) (timestamp : ℝ) : ℝ :=
  if state.lastTimestamp = 0 then 0.016 else (timestamp - state.lastTimestamp) / 1000

/-- Clamped delta from `updateEngine`: `Math.min(deltaTime, 0.1)`, guarding
against huge jumps (only from above). -/
def clampedDeltaOf (state : EngineState) (timestamp : ℝ) : ℝ :=
  min (deltaTimeOf state timestamp) 0.1

/-- Combo-timeout reset from the tail of `updateEngine`: the combo counter
resets once more than `SCORING.comboDuration` milliseconds have passed since
the last catch. -/
def applyComboTimeout (state : EngineState) (timestamp : ℝ) : EngineState :=
  if timestamp - state.lastCatchTime > SCORING.comboDuration then
    { state with comboCount := 0 }
  else state

/-- Marco-call handling (`handleMarcoCall`): trigger the call on the player,
add the sound wave, reveal fish in wave range with a polo response and a
brief response pause before fleeing, emit the polo-response and
marco-called events, and spend one call.  Audio side effects are excluded
collaborators.  The JavaScript `fishInRange.includes(fish)` membership test
is by object identity over elements of the same array, which coincides with
the range filter condition. -/
def handleMarcoCall (state : EngineState) (timestamp : ℝ) (o : EngineRand) :
    EngineState × List GameEvent :=
  let newPlayer := triggerMarcoCall state.player state.config timestamp
  let newEffects := addSoundWave state.effects state.player.position
    state.config.marcoWaveRadius timestamp o.waveId
  let fishInRange := getFishInRadius state.fish state.player.position
    state.config.marcoWaveRadius
  let newFish := state.fish.map (fun fish =>
    if fishInRadiusB fish state.player.position state.config.marcoWaveRadius then
      triggerPoloResponse fish state.config timestamp
    else fish)
  let newEffects := (fishInRange.enum).foldl
    (fun eff p => addPoloBubble eff p.2.position timestamp (o.bubbleId p.1)) newEffects
  let events := fishInRange.map (fun fish => GameEvent.poloResponse fish.id fish.position)
  let fishWithBubbles := fishInRange.map (fun fish => fish.id)
  let updatedFish := newFish.map (fun fish =>
    if fishWithBubbles.contains fish.id then { fish with behaviorTimer := 500 } else fish)
  ({ state with
      player := newPlayer,
      fish := updatedFish,
      effects := newEffects,
      gameState := { state.gameState with
        marcoCallsRemaining := state.gameState.marcoCallsRemaining - 1 } },
   events ++ [GameEvent.marcoCalled state.player.position])

/-- Recursion of `checkFishCatches` over the fish list, mirroring the
JavaScript `map` callback that closes over the mutable accumulating state:
`outer` is the state the function was called with (its player, remaining
time and configuration are read throughout), `st` and `evs` accumulate the
scored state, processed fish and emitted events, and `i` indexes the oracle
draws. -/
def catchesGo (outer : EngineState) (timestamp : ℝ) (o : EngineRand) :
    ℕ → EngineState → List GameEvent → List FishState → EngineState × List GameEvent
  | _, st, evs, [] => (st, evs)
  | i, st, evs, fish :: rest =>
    if fish.isCaught then
      catchesGo outer timestamp o (i + 1) { st with fish := st.fish ++ [fish] } evs rest
    else if checkPlayerFishCollision outer.player fish then
      let basePoints := getFishPoints fish
      let comboMultiplier :=
        min (1 + (st.comboCount : ℝ) * SCORING.comboMultiplier) SCORING.maxComboMultiplier
      let timeBonus :=
        outer.gameState.timeRemaining / outer.config.gameDuration * SCORING.speedBonusMultiplier
      let points : ℝ := ((⌊basePoints * comboMultiplier * (1 + timeBonus)⌋ : ℤ) : ℝ)
      let newScore := st.gameState.score + points
      let st2 :=
        { st with
          gameState := { st.gameState with
            score := newScore, fishCaught := st.gameState.fishCaught + 1 },
          comboCount := st.comboCount + 1,
          lastCatchTime := timestamp,
          effects := addScorePopup
            (addRipple (addCatchParticles st.effects (o.catchParticles i))
              fish.position timestamp (o.catchRippleId i))
            fish.position points timestamp (o.popupId i),
          fish := st.fish ++ [catchFish fish] }
      catchesGo outer timestamp o (i + 1) st2
        (evs ++ [GameEvent.fishCaught fish.id points, GameEvent.scoreUpdated newScore]) rest
    else
      catchesGo outer timestamp o (i + 1) { st with fish := st.fish ++ [fish] } evs rest

/-- Catch detection and scoring (`checkFishCatches`): every uncaught fish
overlapping the player is caught, scored with the linear (capped) catch
combo multiplier and the time bonus, and emits catch and score events. -/
def checkFishCatches (state : EngineState) (timestamp : ℝ) (o : EngineRand) :
    EngineState × List GameEvent :=
  catchesGo state timestamp o 0 { state with fish := [] } [] state.fish

/-- Tail of `updateEngine` after catch detection, in source order:
all-caught game over, effects aging, movement-ripple chance, combo timeout
and last-timestamp recording.  `s6` is the state after catches and `evs`
the events emitted so far this step. -/
def engineTail (s6 : EngineState) (evs : List GameEvent) (cd timestamp : ℝ)
    (o : EngineRand) : EngineState × List GameEvent :=
  let activeFish := s6.fish.filter (fun f => ! f.isCaught)
  if activeFish.length = 0 then
    ({ s6 with
        gameState := { s6.gameState with screen := GameScreen.gameOver },
        lastTimestamp := timestamp },
     evs ++ [GameEvent.gameOver GameOverReason.allCaught])
  else
    let s7 := { s6 with effects := updateEffects s6.effects cd timestamp }
    let playerSpeed := Real.sqrt (s7.player.velocity.x ^ 2 + s7.player.velocity.y ^ 2)
    let s8 :=
      if playerSpeed > 50 ∧ o.rippleRoll < 0.1 then
        { s7 with effects := addRipple s7.effects s7.player.position timestamp o.rippleId }
      else s7
    let s9 := applyComboTimeout s8 timestamp
    ({ s9 with lastTimestamp := timestamp }, evs)

/-- Body of `updateEngine` for a running round whose timer has not expired,
in source order: Marco call when eligible, player update, wall-bump penalty
and event, fish updates, catch detection, then the tail stages.  `state` is
the state the engine step was called with (the Marco eligibility check and
the wall check read it) and `s1` the state after the timer update. -/
def engineRun (state : EngineState) (keys : KeyboardState) (timestamp : ℝ)
    (o : EngineRand) (cd : ℝ) (s1 : EngineState) : EngineState × List GameEvent :=
  let mc :=
    if keys.space && canCallMarco state.player state.gameState.marcoCallsRemaining then
      handleMarcoCall s1 timestamp o
    else (s1, [])
  let s3 := { mc.1 with player := updatePlayer mc.1.player keys mc.1.config cd timestamp }
  let bump := isInBounds state.previousPlayerPosition state.player.radius &&
    ! isInBounds s3.player.position s3.player.radius
  let s4 :=
    if bump then
      { s3 with gameState := { s3.gameState with
          score := max 0 (s3.gameState.score - SCORING.wallPenalty) } }
    else s3
  let evs2 :=
    if bump then mc.2 ++ [GameEvent.wallCollision s3.player.position]
    else mc.2
  let s5 := { s4 with
    fish := (s4.fish.enum).map (fun p =>
      updateFish p.2 s4.player.position s4.config cd timestamp (o.fishR p.1)) }
  let cc := checkFishCatches s5 timestamp o
  engineTail cc.1 (evs2 ++ cc.2) cd timestamp o

/-- Main engine step (`updateEngine` in `engine/gameEngine.ts`), in source
order: paused short-circuit (only the last timestamp is recorded); delta
computation and clamping; previous-position bookkeeping; timer run-down and
timeout game over; then the running-round body `engineRun` (Marco call,
player, wall bump, fish, catches) and the tail stages in `engineTail`.
Sound playback is an excluded collaborator; events are returned in emission
order. -/
def updateEngine (state : EngineState) (keys : KeyboardState) (timestamp : ℝ)
    (o : EngineRand) : EngineState × List GameEvent :=
  if state.gameState.isPaused then ({ state with lastTimestamp := timestamp }, [])
  else
    let cd := clampedDeltaOf state timestamp
    let s1 := { state with
      previousPlayerPosition := state.player.position,
      gameState := { state.gameState with
        timeRemaining := max 0 (state.gameState.timeRemaining - cd) } }
    if s1.gameState.timeRemaining ≤ 0 then
      ({ s1 with
          gameState := { s1.gameState with screen := GameScreen.gameOver },
          lastTimestamp := timestamp },
       [GameEvent.gameOver GameOverReason.timeout])
    else engineRun state keys timestamp o cd s1

/-- Pause setter (`setPaused`). -/
def setPaused (state : EngineState) (paused : Bool) : EngineState :=
  { state with gameState := { state.gameState with isPaused := paused } }

end Marco

namespace Pac

/-- Concrete arena bounds for the instances below. -/
def bounds0 : Bounds3 := ⟨20, 20⟩

/-- A concrete Pac-Man at its spawn position, not powered up. -/
def pac0 : PacmanState :=
  { position := ⟨0, 0.5, 0⟩, velocity := ⟨0, 0, 0⟩, speed := 6, radius := 0.6,
    mouthAngle := 0.3, mouthOpen := true, isPoweredUp := false, powerUpEndTime := 0 }

/-- A concrete frightened ghost overlapping the Pac-Man position. -/
def ghostA : GhostState :=
  { id := "a", position := ⟨0, 0.6, 0⟩, velocity := ⟨1, 0, 0⟩, speed := 2.25,
    baseSpeed := 4.5, radius := 0.6, color := "red", mode := GhostMode.frightened,
    directionTimer := 1, spawnDelay := 0, isActive := true }

/-- A concrete chase-mode ghost away from the player. -/
def ghostB : GhostState :=
  { ghostA with id := "b", mode := GhostMode.chase, position := ⟨10, 0.6, 10⟩, speed := 4.5 }

/-- A concrete ghost used for the length-clamp witness: at the arena center
with a velocity whose wander terms cancel at scene-clock zero. -/
def ghostW : GhostState :=
  { ghostA with
    id := "w", mode := GhostMode.chase, position := ⟨0, 0.6, 0⟩,
    velocity := ⟨3, 0, -0.2⟩, speed := 10 }

/-- A concrete fresh power pellet. -/
def pelletP : PowerPelletState := { id := "pw", position := ⟨18, 0.5, 18⟩, isEaten := false }

/-- A concrete running game with one frightened ghost, one chase ghost, a
fresh power pellet and two prior defeats in the combo counter. -/
def SgameA : PacGame :=
  { pacman := pac0, pellets := [], powerPellets := [pelletP], ghosts := [ghostA, ghostB],
    score := 0, lives := 3, level := 1, gameStatus := GameStatus.playing,
    pelletsEaten := 0, ghostsEatenCombo := 2, comboDisplay := none }

/-- A concrete running game with a single chase-mode ghost and three lives. -/
def SgameB : PacGame := { SgameA with ghosts := [ghostB], ghostsEatenCombo := 0 }

/-- The game `SgameA` with the power-up active. -/
def SgameC : PacGame := { SgameA with pacman := { pac0 with isPoweredUp := true } }

/-- Oracle instance with fixed draws for the ghost-frame witnesses. -/
def ghostRand0 : GhostRand := ⟨1, 0, 0, 0, 0⟩

end Pac

namespace Marco

/-- The keyboard state with no key pressed. -/
def keys0 : KeyboardState := ⟨false, false, false, false, false, false, false⟩

/-- A fixed fish oracle (the values are unused on the evaluated paths). -/
def fishRand0 : FishRand :=
  { fleeRoll := 1, idleRoll := 1, changeTargetOffset := ⟨0, 0⟩, newBehaviorTimer := 2000,
    swimDirRoll := 1, swimDirTargetOffset := ⟨0, 0⟩, swimNullTargetOffset := ⟨0, 0⟩,
    fleeExitTargetOffset := ⟨0, 0⟩ }

/-- A fixed engine oracle. -/
def oracle0 : EngineRand :=
  { fishR := fun _ => fishRand0, rippleRoll := 1, rippleId := "r", waveId := "w",
    bubbleId := fun _ => "b", catchParticles := fun _ => [], catchRippleId := fun _ => "cr",
    popupId := fun _ => "sp" }

/-- A concrete player at the canvas center with no velocity and no cooldown. -/
def player0 : PlayerState :=
  { id := "p", position := ⟨400, 300⟩, velocity := ⟨0, 0⟩, radius := 20, isActive := true,
    isCalling := false, callCooldownRemaining := 0, lastCallTime := 0, facingAngle := 0 }

/-- A concrete idle fish away from the player. -/
def fishA : FishState :=
  { id := "f1", position := ⟨100, 100⟩, velocity := ⟨0, 0⟩, radius := 12, isActive := true,
    isCaught := false, isRevealed := false, revealedUntil := 0, baseSpeed := 1,
    currentBehavior := FishBehavior.idle, behaviorTimer := 3000, targetPosition := none,
    color := "red", size := FishSize.small }

/-- A concrete fish already in the terminal caught state. -/
def fishB : FishState := { fishA with id := "f2", isCaught := true, isActive := false }

/-- A concrete medium fish exactly at the player position. -/
def fishC : FishState :=
  { fishA with id := "f3", position := ⟨400, 300⟩, size := FishSize.medium, radius := 16 }

/-- A concrete running game state on medium difficulty. -/
def gs0 : GameState :=
  { screen := GameScreen.playing, score := 0, highScore := 0, timeRemaining := 75,
    fishCaught := 0, totalFish := 7, marcoCallsRemaining := 12,
    difficulty := Difficulty.medium, isPaused := false }

/-- A concrete engine state with one idle fish and a recorded previous
timestamp of 1000. -/
def engine0 : EngineState :=
  { gameState := gs0, config := configMedium, player := player0, fish := [fishA],
    effects := createEffects, lastTimestamp := 1000, comboCount := 0, lastCatchTime := 0,
    previousPlayerPosition := ⟨400, 300⟩ }

/-- The engine state `engine0` with almost no time remaining. -/
def engineC3 : EngineState := { engine0 with gameState := { gs0 with timeRemaining := 0.001 } }

/-- The engine state `engine0`, paused. -/
def engineC5 : EngineState := { engine0 with gameState := { gs0 with isPaused := true } }

/-- The engine state `engine0` with one caught and one uncaught fish. -/
def engineC8 : EngineState := { engine0 with fish := [fishB, fishA] }

/-- The engine state `engine0` with a single fish overlapping the player. -/
def engineC10 : EngineState := { engine0 with fish := [fishC] }

/-- All fish carrying the given id are in the terminal caught state. -/
def CaughtAt (l : List FishState) (i : String) : Prop :=
  ∀ f ∈ l, f.id = i → f.isCaught = true

end Marco

namespace Pac

theorem updateFirst_find? {α : Type} (p : α → Bool) (f : α → α)
    (hpf : ∀ x, p (f x) = p x) :
    ∀ (l : List α) (a : α), l.find? p = some a →
      (updateFirst p f l).find? p = some (f a) := by
  intro l
  induction l with
  | nil => intro a h; simp [List.find?] at h
  | cons x xs ih =>
    intro a h
    by_cases hx : p x = true
    · rw [List.find?_cons_of_pos _ hx] at h
      injection h with h
      subst h
      rw [updateFirst, if_pos hx, List.find?_cons_of_pos _ ((hpf x).trans hx)]
    · rw [List.find?_cons_of_neg _ hx] at h
      rw [updateFirst, if_neg hx, List.find?_cons_of_neg _ hx]
      exact ih a h

theorem mem_updateFirst_of_find? {α : Type} (p : α → Bool) (f : α → α) :
    ∀ (l : List α) (a : α), l.find? p = some a →
      ∀ x ∈ updateFirst p f l, x ∈ l ∨ x = f a := by
  intro l
  induction l with
  | nil => intro a h; simp [List.find?] at h
  | cons y ys ih =>
    intro a h x hx
    by_cases hy : p y = true
    · rw [List.find?_cons_of_pos _ hy] at h
      injection h with h
      subst h
      rw [updateFirst, if_pos hy] at hx
      rcases List.mem_cons.mp hx with h1 | h1
      · right; exact h1
      · left; exact List.mem_cons_of_mem _ h1
    · rw [List.find?_cons_of_neg _ hy] at h
      rw [updateFirst, if_neg hy] at hx
      rcases List.mem_cons.mp hx with h1 | h1
      · left; exact h1 ▸ List.mem_cons_self _ _
      · rcases ih a h x h1 with h2 | h2
        · left; exact List.mem_cons_of_mem _ h2
        · right; exact h2

theorem ghostDecideVelocity_mode (g : GhostState) (i : ℕ) (pac : PacmanState)
    (bounds : Bounds3) (dt : ℝ) (ρ : GhostRand) :
    (ghostDecideVelocity g i pac bounds dt ρ).mode = g.mode := by
  simp only [ghostDecideVelocity]
  split_ifs <;> rfl

theorem ghostApplyWander_mode (g : GhostState) (i : ℕ) (clockTime dt : ℝ)
    (bounds : Bounds3) :
    (ghostApplyWander g i clockTime dt bounds).mode = g.mode := by
  simp only [ghostApplyWander]

theorem jsMod_eq_of_interval (t : ℝ) (k : ℕ) (h1 : 59 + 25 * (k : ℝ) ≤ t)
    (h2 : t < 59 + 25 * ((k : ℝ) + 1)) :
    jsMod (t - 59) 25 = t - 59 - 25 * k := by
  have hk : ⌊(t - 59) / 25⌋ = (k : ℤ) := by
    rw [Int.floor_eq_iff]
    constructor
    · rw [le_div_iff₀ (by norm_num : (0 : ℝ) < 25)]
      push_cast
      linarith
    · rw [div_lt_iff₀ (by norm_num : (0 : ℝ) < 25)]
      push_cast
      linarith
  rw [jsMod, hk]
  push_cast
  ring

end Pac

namespace Pac

theorem updateGhostFrame_mode_schedule (g : GhostState) (i : ℕ) (pac : PacmanState)
    (bounds : Bounds3) (elapsed dt clockTime : ℝ) (ρ : GhostRand)
    (hact : g.isActive = true ∨ elapsed > g.spawnDelay)
    (hnf : g.mode ≠ GhostMode.frightened) (hne : g.mode ≠ GhostMode.eaten) :
    (updateGhostFrame g i pac bounds elapsed dt clockTime ρ).1.mode
      = ghostModeSchedule (elapsed / 1000) := by
  simp only [updateGhostFrame]
  set gact := if ¬ g.isActive ∧ elapsed > g.spawnDelay then { g with isActive := true } else g
    with hgact
  have hAct : gact.isActive = true := by
    rw [hgact]
    split_ifs with h
    · rfl
    · rcases hact with h2 | h2
      · exact h2
      · by_contra hc
        exact h ⟨by simpa using hc, h2⟩
  have hMode : gact.mode = g.mode := by
    rw [hgact]
    split_ifs <;> rfl
  rw [if_neg (show ¬ (¬ gact.isActive ∨ gact.mode = GhostMode.eaten) by
    simp [hAct, hMode, hne])]
  have h2 : (ghostApplyWander (ghostDecideVelocity gact i pac bounds dt ρ) i
      clockTime dt bounds).mode = g.mode := by
    rw [ghostApplyWander_mode, ghostDecideVelocity_mode, hMode]
  split_ifs <;> simp_all

theorem ghostModeSchedule_spec :
    ∀ t : ℝ,
      (0 ≤ t → t < 7 → ghostModeSchedule t = GhostMode.scatter) ∧
      (7 ≤ t → t < 27 → ghostModeSchedule t = GhostMode.chase) ∧
      (27 ≤ t → t < 34 → ghostModeSchedule t = GhostMode.scatter) ∧
      (34 ≤ t → t < 54 → ghostModeSchedule t = GhostMode.chase) ∧
      (54 ≤ t → t < 59 → ghostModeSchedule t = GhostMode.scatter) ∧
      ∀ k : ℕ,
        (59 + 25 * (k : ℝ) ≤ t → t < 59 + 25 * (k : ℝ) + 5 →
          ghostModeSchedule t = GhostMode.scatter) ∧
        (59 + 25 * (k : ℝ) + 5 ≤ t → t < 59 + 25 * ((k : ℝ) + 1) →
          ghostModeSchedule t = GhostMode.chase) := by
  intro t
  refine ⟨?_, ?_, ?_, ?_, ?_, ?_⟩
  · intro _ h
    rw [ghostModeSchedule, if_pos h]
  · intro h1 h2
    rw [ghostModeSchedule, if_neg (by linarith), if_pos h2]
  · intro h1 h2
    rw [ghostModeSchedule, if_neg (by linarith), if_neg (by linarith), if_pos h2]
  · intro h1 h2
    rw [ghostModeSchedule, if_neg (by linarith), if_neg (by linarith),
      if_neg (by linarith), if_pos h2]
  · intro h1 h2
    rw [ghostModeSchedule, if_neg (by linarith), if_neg (by linarith),
      if_neg (by linarith), if_neg (by linarith), if_pos h2]
  · intro k
    have hk0 : (0 : ℝ) ≤ (k : ℝ) := Nat.cast_nonneg k
    constructor
    · intro h1 h2
      have hmod : jsMod (t - 59) 25 = t - 59 - 25 * k :=
        jsMod_eq_of_interval t k h1 (by linarith)
      rw [ghostModeSchedule, if_neg (by linarith), if_neg (by linarith),
        if_neg (by linarith), if_neg (by linarith), if_neg (by linarith),
        if_pos (by rw [hmod]; linarith)]
    · intro h1 h2
      have hmod : jsMod (t - 59) 25 = t - 59 - 25 * k :=
        jsMod_eq_of_interval t k (by linarith) h2
      rw [ghostModeSchedule, if_neg (by linarith), if_neg (by linarith),
        if_neg (by linarith), if_neg (by linarith), if_neg (by linarith),
        if_neg (by rw [hmod]; linarith)]

end Pac

namespace Pac

theorem vlength_vscale (v : Vec3) (c : ℝ) : vlength (vscale v c) = |c| * vlength v := by
  unfold vlength vlengthSq vscale
  simp only
  rw [show v.x * c * (v.x * c) + v.y * c * (v.y * c) + v.z * c * (v.z * c)
      = c ^ 2 * (v.x * v.x + v.y * v.y + v.z * v.z) by ring]
  rw [Real.sqrt_mul (sq_nonneg c), Real.sqrt_sq_eq_abs]

theorem vlength_clampLength (v : Vec3) (lo hi : ℝ) (h0 : 0 ≤ lo)
    (hv : vlength v ≠ 0) :
    vlength (clampLength v lo hi) = max lo (min hi (vlength v)) := by
  have hl : 0 < vlength v := lt_of_le_of_ne (Real.sqrt_nonneg _) (Ne.symm hv)
  have hm : 0 ≤ max lo (min hi (vlength v)) := le_trans h0 (le_max_left _ _)
  simp only [clampLength]
  rw [if_neg hv, vlength_vscale, vlength_vscale]
  rw [abs_of_nonneg hm, abs_of_nonneg (by positivity : (0 : ℝ) ≤ 1 / vlength v)]
  field_simp

theorem ghostApplyWander_velocity (g : GhostState) (i : ℕ) (clockTime dt : ℝ)
    (bounds : Bounds3) :
    (ghostApplyWander g i clockTime dt bounds).velocity
      = vlerp g.velocity
          (clampLength (ghostCombinedWander g i clockTime bounds) (g.speed * 0.5) g.speed)
          (if g.mode = GhostMode.frightened then 0.15 else 0.12) := by
  simp only [ghostApplyWander]

end Pac

namespace Marco

theorem changeBehavior_isCaught (fish : FishState) (pp : Vec2) (ρ : FishRand) :
    (changeBehavior fish pp ρ).isCaught = fish.isCaught := by
  simp only [changeBehavior]
  split_ifs <;> rfl

theorem changeBehavior_id (fish : FishState) (pp : Vec2) (ρ : FishRand) :
    (changeBehavior fish pp ρ).id = fish.id := by
  simp only [changeBehavior]
  split_ifs <;> rfl

theorem executeSwimming_isCaught (fish : FishState) (config : GameConfig) (ρ : FishRand) :
    (executeSwimming fish config ρ).isCaught = fish.isCaught := by
  simp only [executeSwimming]
  cases htp : fish.targetPosition with
  | none => rfl
  | some tp =>
    dsimp only
    split_ifs <;> rfl

theorem executeSwimming_id (fish : FishState) (config : GameConfig) (ρ : FishRand) :
    (executeSwimming fish config ρ).id = fish.id := by
  simp only [executeSwimming]
  cases htp : fish.targetPosition with
  | none => rfl
  | some tp =>
    dsimp only
    split_ifs <;> rfl

theorem executeFleeing_isCaught (fish : FishState) (pp : Vec2) (config : GameConfig)
    (ρ : FishRand) : (executeFleeing fish pp config ρ).isCaught = fish.isCaught := by
  simp only [executeFleeing]
  split_ifs <;> rfl

theorem executeFleeing_id (fish : FishState) (pp : Vec2) (config : GameConfig)
    (ρ : FishRand) : (executeFleeing fish pp config ρ).id = fish.id := by
  simp only [executeFleeing]
  split_ifs <;> rfl

theorem updateFish_isCaught (fish : FishState) (pp : Vec2) (config : GameConfig)
    (deltaTime timestamp : ℝ) (ρ : FishRand) :
    (updateFish fish pp config deltaTime timestamp ρ).isCaught = fish.isCaught := by
  by_cases h : fish.isCaught
  · simp [updateFish, h]
  · simp only [updateFish, if_neg h]
    split_ifs <;>
      (try split) <;>
        simp_all [changeBehavior_isCaught, executeSwimming_isCaught, executeFleeing_isCaught]

theorem updateFish_id (fish : FishState) (pp : Vec2) (config : GameConfig)
    (deltaTime timestamp : ℝ) (ρ : FishRand) :
    (updateFish fish pp config deltaTime timestamp ρ).id = fish.id := by
  by_cases h : fish.isCaught
  · simp [updateFish, h]
  · simp only [updateFish, if_neg h]
    split_ifs <;>
      (try split) <;>
        simp_all [changeBehavior_id, executeSwimming_id, executeFleeing_id]

theorem triggerPoloResponse_isCaught (fish : FishState) (config : GameConfig)
    (timestamp : ℝ) :
    (triggerPoloResponse fish config timestamp).isCaught = fish.isCaught := by
  simp only [triggerPoloResponse]
  split_ifs <;> rfl

theorem triggerPoloResponse_id (fish : FishState) (config : GameConfig)
    (timestamp : ℝ) :
    (triggerPoloResponse fish config timestamp).id = fish.id := by
  simp only [triggerPoloResponse]
  split_ifs <;> rfl

theorem checkPlayerFishCollision_caught (player : PlayerState) (fish : FishState)
    (h : fish.isCaught = true) : checkPlayerFishCollision player fish = false := by
  simp [checkPlayerFishCollision, h]

end Marco

namespace Marco

theorem caughtAt_map (l : List FishState) (i : String) (F : FishState → FishState)
    (hF : ∀ f, (F f).id = f.id ∧ (F f).isCaught = f.isCaught)
    (h : CaughtAt l i) : CaughtAt (l.map F) i := by
  intro f hf hid
  rcases List.mem_map.mp hf with ⟨a, ha, rfl⟩
  rw [(hF a).2]
  rw [(hF a).1] at hid
  exact h a ha hid

theorem caughtAt_enumFromMap (i : String) (G : ℕ → FishState → FishState)
    (hG : ∀ n f, (G n f).id = f.id ∧ (G n f).isCaught = f.isCaught) :
    ∀ (l : List FishState) (n : ℕ), CaughtAt l i →
      CaughtAt ((l.enumFrom n).map (fun p => G p.1 p.2)) i := by
  intro l
  induction l with
  | nil =>
    intro n _ f hf
    simp [List.enumFrom] at hf
  | cons a as ih =>
    intro n h f hf hid
    rw [show (a :: as).enumFrom n = (n, a) :: as.enumFrom (n + 1) from rfl,
      List.map_cons] at hf
    rcases List.mem_cons.mp hf with rfl | hf2
    · rw [(hG n a).2]
      rw [(hG n a).1] at hid
      exact h a (List.mem_cons_self a as) hid
    · exact ih (n + 1) (fun x hx hxi => h x (List.mem_cons_of_mem _ hx) hxi) f hf2 hid

theorem caughtAt_enumMap (l : List FishState) (i : String)
    (G : ℕ → FishState → FishState)
    (hG : ∀ n f, (G n f).id = f.id ∧ (G n f).isCaught = f.isCaught)
    (h : CaughtAt l i) :
    CaughtAt ((l.enum).map (fun p => G p.1 p.2)) i :=
  caughtAt_enumFromMap i G hG l 0 h

theorem handleMarcoCall_gameStateTR (s : EngineState) (t : ℝ) (o : EngineRand) :
    (handleMarcoCall s t o).1.gameState.timeRemaining = s.gameState.timeRemaining := rfl

theorem handleMarcoCall_fish_eq (s : EngineState) (t : ℝ) (o : EngineRand) :
    (handleMarcoCall s t o).1.fish
      = (s.fish.map (fun fish =>
          if fishInRadiusB fish s.player.position s.config.marcoWaveRadius then
            triggerPoloResponse fish s.config t
          else fish)).map
        (fun fish =>
          if ((getFishInRadius s.fish s.player.position s.config.marcoWaveRadius).map
              (fun x => x.id)).contains fish.id then
            { fish with behaviorTimer := 500 }
          else fish) := rfl

theorem handleMarcoCall_events_eq (s : EngineState) (t : ℝ) (o : EngineRand) :
    (handleMarcoCall s t o).2
      = (getFishInRadius s.fish s.player.position s.config.marcoWaveRadius).map
          (fun fish => GameEvent.poloResponse fish.id fish.position)
        ++ [GameEvent.marcoCalled s.player.position] := rfl

theorem handleMarcoCall_caughtAt (s : EngineState) (t : ℝ) (o : EngineRand)
    (i : String) (h : CaughtAt s.fish i) :
    CaughtAt (handleMarcoCall s t o).1.fish i := by
  rw [handleMarcoCall_fish_eq]
  apply caughtAt_map
  · intro f
    split_ifs <;> exact ⟨rfl, rfl⟩
  apply caughtAt_map
  · intro f
    split_ifs
    · exact ⟨triggerPoloResponse_id f s.config t, triggerPoloResponse_isCaught f s.config t⟩
    · exact ⟨rfl, rfl⟩
  exact h

theorem handleMarcoCall_no_fishCaught (s : EngineState) (t : ℝ) (o : EngineRand)
    (i : String) (p : ℝ) : GameEvent.fishCaught i p ∉ (handleMarcoCall s t o).2 := by
  rw [handleMarcoCall_events_eq]
  intro hmem
  rcases List.mem_append.mp hmem with hmem | hmem
  · rcases List.mem_map.mp hmem with ⟨a, _, ha⟩
    exact GameEvent.noConfusion ha
  · rw [List.mem_singleton] at hmem
    exact GameEvent.noConfusion hmem

theorem catchesGo_timeRemaining (outer : EngineState) (t : ℝ) (o : EngineRand) :
    ∀ (l : List FishState) (i : ℕ) (st : EngineState) (evs : List GameEvent),
      (catchesGo outer t o i st evs l).1.gameState.timeRemaining
        = st.gameState.timeRemaining := by
  intro l
  induction l with
  | nil => intro i st evs; rfl
  | cons fish rest ih =>
    intro i st evs
    simp only [catchesGo]
    split_ifs with h1 h2
    · exact ih _ _ _
    · rw [ih]
    · exact ih _ _ _

theorem checkFishCatches_timeRemaining (s : EngineState) (t : ℝ) (o : EngineRand) :
    (checkFishCatches s t o).1.gameState.timeRemaining = s.gameState.timeRemaining := by
  rw [checkFishCatches, catchesGo_timeRemaining]

theorem applyComboTimeout_gameState (s : EngineState) (t : ℝ) :
    (applyComboTimeout s t).gameState = s.gameState := by
  simp only [applyComboTimeout]
  split_ifs <;> rfl

theorem updateEngine_paused (s : EngineState) (k : KeyboardState) (t : ℝ)
    (o : EngineRand) (h : s.gameState.isPaused = true) :
    updateEngine s k t o = ({ s with lastTimestamp := t }, []) := by
  simp [updateEngine, h]

theorem engineTail_timeRemaining (s6 : EngineState) (evs : List GameEvent)
    (cd t : ℝ) (o : EngineRand) :
    (engineTail s6 evs cd t o).1.gameState.timeRemaining
      = s6.gameState.timeRemaining := by
  simp only [engineTail]
  split_ifs <;> simp [applyComboTimeout_gameState]

theorem engineRun_timeRemaining (state : EngineState) (keys : KeyboardState)
    (t : ℝ) (o : EngineRand) (cd : ℝ) (s1 : EngineState) :
    (engineRun state keys t o cd s1).1.gameState.timeRemaining
      = s1.gameState.timeRemaining := by
  simp only [engineRun]
  rw [engineTail_timeRemaining, checkFishCatches_timeRemaining]
  split_ifs <;> simp [handleMarcoCall_gameStateTR]

theorem updateEngine_timeRemaining (s : EngineState) (k : KeyboardState) (t : ℝ)
    (o : EngineRand) (h : s.gameState.isPaused = false) :
    (updateEngine s k t o).1.gameState.timeRemaining
      = max 0 (s.gameState.timeRemaining - clampedDeltaOf s t) := by
  simp only [updateEngine, h, Bool.false_eq_true, if_false]
  split_ifs
  · rfl
  · rw [engineRun_timeRemaining]

end Marco

namespace Marco

theorem catchesGo_caughtAt (outer : EngineState) (t : ℝ) (o : EngineRand) (i0 : String) :
    ∀ (l : List FishState) (i : ℕ) (st : EngineState) (evs : List GameEvent),
      CaughtAt l i0 → CaughtAt st.fish i0 →
      (∀ p, GameEvent.fishCaught i0 p ∉ evs) →
      CaughtAt (catchesGo outer t o i st evs l).1.fish i0 ∧
        ∀ p, GameEvent.fishCaught i0 p ∉ (catchesGo outer t o i st evs l).2 := by
  intro l
  induction l with
  | nil =>
    intro i st evs _ h2 h3
    exact ⟨h2, h3⟩
  | cons fish rest ih =>
    intro i st evs h1 h2 h3
    have htail : CaughtAt rest i0 := fun x hx => h1 x (List.mem_cons_of_mem _ hx)
    simp only [catchesGo]
    split_ifs with hc hcol
    · refine ih _ _ _ htail ?_ h3
      intro x hx hxi
      rcases List.mem_append.mp hx with hx | hx
      · exact h2 x hx hxi
      · rw [List.mem_singleton] at hx
        subst hx
        exact hc
    · have hid : fish.id ≠ i0 := by
        intro hcontra
        exact hc (h1 fish (List.mem_cons_self _ _) hcontra)
      refine ih _ _ _ htail ?_ ?_
      · intro x hx hxi
        rcases List.mem_append.mp hx with hx | hx
        · exact h2 x hx hxi
        · rw [List.mem_singleton] at hx
          subst hx
          rfl
      · intro p hp
        rcases List.mem_append.mp hp with hp | hp
        · exact h3 p hp
        · simp only [List.mem_cons, List.mem_singleton] at hp
          rcases hp with hp | hp | hp
          · injection hp with hI hP
            exact hid hI.symm
          · exact GameEvent.noConfusion hp
          · exact absurd hp (List.not_mem_nil _)
    · refine ih _ _ _ htail ?_ h3
      intro x hx hxi
      rcases List.mem_append.mp hx with hx | hx
      · exact h2 x hx hxi
      · rw [List.mem_singleton] at hx
        subst hx
        exact (hc (h1 x (List.mem_cons_self _ _) hxi)).elim

theorem checkFishCatches_caughtAt (s : EngineState) (t : ℝ) (o : EngineRand)
    (i0 : String) (h : CaughtAt s.fish i0) :
    CaughtAt (checkFishCatches s t o).1.fish i0 ∧
      ∀ p, GameEvent.fishCaught i0 p ∉ (checkFishCatches s t o).2 := by
  rw [checkFishCatches]
  exact catchesGo_caughtAt s t o i0 s.fish 0 _ [] h (fun x hx => absurd hx (List.not_mem_nil _))
    (fun p hp => absurd hp (List.not_mem_nil _))


end Marco

namespace Marco

theorem applyComboTimeout_fish (s : EngineState) (t : ℝ) :
    (applyComboTimeout s t).fish = s.fish := by
  simp only [applyComboTimeout]
  split_ifs <;> rfl

theorem engineTail_caughtAt (s6 : EngineState) (evs : List GameEvent) (cd t : ℝ)
    (o : EngineRand) (i : String) (h : CaughtAt s6.fish i)
    (he : ∀ p, GameEvent.fishCaught i p ∉ evs) :
    CaughtAt (engineTail s6 evs cd t o).1.fish i ∧
      ∀ p, GameEvent.fishCaught i p ∉ (engineTail s6 evs cd t o).2 := by
  simp only [engineTail]
  split_ifs with h1 h2
  · refine ⟨h, ?_⟩
    intro p hp
    rcases List.mem_append.mp hp with hp | hp
    · exact he p hp
    · rw [List.mem_singleton] at hp
      exact GameEvent.noConfusion hp
  · exact ⟨by simpa [applyComboTimeout_fish] using h, he⟩
  · exact ⟨by simpa [applyComboTimeout_fish] using h, he⟩

theorem engineRun_caughtAt (state : EngineState) (keys : KeyboardState) (t : ℝ)
    (o : EngineRand) (cd : ℝ) (s1 : EngineState) (i : String)
    (h : CaughtAt s1.fish i) :
    CaughtAt (engineRun state keys t o cd s1).1.fish i ∧
      ∀ p, GameEvent.fishCaught i p ∉ (engineRun state keys t o cd s1).2 := by
  have hG : ∀ (n : ℕ) (f : FishState) (pos : Vec2) (cfg : GameConfig),
      (updateFish f pos cfg cd t (o.fishR n)).id = f.id ∧
        (updateFish f pos cfg cd t (o.fishR n)).isCaught = f.isCaught :=
    fun n f pos cfg => ⟨updateFish_id f pos cfg cd t (o.fishR n),
      updateFish_isCaught f pos cfg cd t (o.fishR n)⟩
  simp only [engineRun]
  by_cases hmc : (keys.space && canCallMarco state.player state.gameState.marcoCallsRemaining) = true
  · rw [if_pos hmc]
    have hmcfish : CaughtAt (handleMarcoCall s1 t o).1.fish i :=
      handleMarcoCall_caughtAt s1 t o i h
    split_ifs with hb
    · refine engineTail_caughtAt _ _ _ _ _ _ ?_ ?_
      · exact (checkFishCatches_caughtAt _ t o i
          (caughtAt_enumMap _ i _ (fun n f => hG n f _ _) hmcfish)).1
      · intro p hp
        rcases List.mem_append.mp hp with hp | hp
        · rcases List.mem_append.mp hp with hp | hp
          · exact handleMarcoCall_no_fishCaught s1 t o i p hp
          · rw [List.mem_singleton] at hp
            exact GameEvent.noConfusion hp
        · exact (checkFishCatches_caughtAt _ t o i
            (caughtAt_enumMap _ i _ (fun n f => hG n f _ _) hmcfish)).2 p hp
    · refine engineTail_caughtAt _ _ _ _ _ _ ?_ ?_
      · exact (checkFishCatches_caughtAt _ t o i
          (caughtAt_enumMap _ i _ (fun n f => hG n f _ _) hmcfish)).1
      · intro p hp
        rcases List.mem_append.mp hp with hp | hp
        · exact handleMarcoCall_no_fishCaught s1 t o i p hp
        · exact (checkFishCatches_caughtAt _ t o i
            (caughtAt_enumMap _ i _ (fun n f => hG n f _ _) hmcfish)).2 p hp
  · rw [if_neg hmc]
    split_ifs with hb
    · refine engineTail_caughtAt _ _ _ _ _ _ ?_ ?_
      · exact (checkFishCatches_caughtAt _ t o i
          (caughtAt_enumMap _ i _ (fun n f => hG n f _ _) h)).1
      · intro p hp
        rcases List.mem_append.mp hp with hp | hp
        · rcases List.mem_append.mp hp with hp | hp
          · exact absurd hp (List.not_mem_nil _)
          · rw [List.mem_singleton] at hp
            exact GameEvent.noConfusion hp
        · exact (checkFishCatches_caughtAt _ t o i
            (caughtAt_enumMap _ i _ (fun n f => hG n f _ _) h)).2 p hp
    · refine engineTail_caughtAt _ _ _ _ _ _ ?_ ?_
      · exact (checkFishCatches_caughtAt _ t o i
          (caughtAt_enumMap _ i _ (fun n f => hG n f _ _) h)).1
      · intro p hp
        rcases List.mem_append.mp hp with hp | hp
        · exact absurd hp (List.not_mem_nil _)
        · exact (checkFishCatches_caughtAt _ t o i
            (caughtAt_enumMap _ i _ (fun n f => hG n f _ _) h)).2 p hp

theorem updateEngine_caughtAt (s : EngineState) (k : KeyboardState) (t : ℝ)
    (o : EngineRand) (i : String) (h : CaughtAt s.fish i) :
    CaughtAt (updateEngine s k t o).1.fish i ∧
      ∀ p, GameEvent.fishCaught i p ∉ (updateEngine s k t o).2 := by
  by_cases hp : s.gameState.isPaused = true
  · rw [updateEngine_paused s k t o hp]
    exact ⟨h, fun p hp2 => absurd hp2 (List.not_mem_nil _)⟩
  · simp only [updateEngine, if_neg hp]
    split_ifs with h1
    · refine ⟨h, ?_⟩
      intro p hp2
      rw [List.mem_singleton] at hp2
      exact GameEvent.noConfusion hp2
    · exact engineRun_caughtAt s k t o _ _ i h

end Marco

namespace Pac

theorem handleGhostEaten_lives (S : PacGame) (gid : String) :
    (handleGhostEaten S gid).lives = S.lives := by
  simp only [handleGhostEaten]
  cases h : S.ghosts.find? (fun g => g.id == gid) with
  | none => rfl
  | some g =>
    dsimp only
    split_ifs <;> rfl

theorem handleGhostEaten_eq (S : PacGame) (gid : String) (g : GhostState)
    (hg : S.ghosts.find? (fun x => x.id == gid) = some g)
    (hfr : g.mode = GhostMode.frightened) :
    handleGhostEaten S gid
      = { S with
          ghosts := updateFirst (fun x => x.id == gid)
            (fun x => { x with mode := GhostMode.eaten }) S.ghosts,
          score := S.score + SCORES.ghost * 2 ^ S.ghostsEatenCombo,
          ghostsEatenCombo := S.ghostsEatenCombo + 1,
          comboDisplay := some (SCORES.ghost * 2 ^ S.ghostsEatenCombo,
            S.ghostsEatenCombo + 1) } := by
  simp only [handleGhostEaten, hg]
  rw [if_neg (by simp [hfr])]

theorem handlePowerPelletEaten_eq (fd now : ℝ) (S : PacGame) (pid : String)
    (pp : PowerPelletState)
    (hpp : S.powerPellets.find? (fun x => x.id == pid) = some pp)
    (hf : pp.isEaten = false) :
    handlePowerPelletEaten fd now S pid
      = { S with
          powerPellets := S.powerPellets.filter (fun p => p.id != pid),
          score := S.score + SCORES.powerPellet,
          ghostsEatenCombo := 0,
          pacman := { S.pacman with isPoweredUp := true, powerUpEndTime := now + fd },
          ghosts := S.ghosts.map (fun g =>
            if g.isActive ∧ g.mode ≠ GhostMode.eaten then
              { g with mode := GhostMode.frightened, speed := g.baseSpeed * 0.5 }
            else g) } := by
  simp only [handlePowerPelletEaten, hpp]
  rw [if_neg (by simp [hf])]

end Pac

/-- C1: in the Pac-Man variant, defeating a pursuer while its mode is
Frightened awards the base 200 points multiplied by 2 raised to the number
of consecutive pursuer defeats since the last power pickup (so the first
defeat is worth 200, the second 400, the third 800, and so on), sets that
pursuer's mode to Eaten, and every fresh power-pellet pickup resets the
consecutive-defeat counter so the multiplier starts again at 1. -/
theorem c1_frightened_defeat_combo (S : Pac.PacGame) (fd now : ℝ)
    (gid pid : String) (g : Pac.GhostState) (pp : Pac.PowerPelletState)
    (hg : S.ghosts.find? (fun x => x.id == gid) = some g)
    (hfr : g.mode = Pac.GhostMode.frightened)
    (hpp : S.powerPellets.find? (fun x => x.id == pid) = some pp)
    (hppf : pp.isEaten = false) :
    (Pac.handleGhostEaten S gid).score = S.score + 200 * 2 ^ S.ghostsEatenCombo ∧
      (Pac.handleGhostEaten S gid).ghostsEatenCombo = S.ghostsEatenCombo + 1 ∧
      (Pac.handleGhostEaten S gid).ghosts.find? (fun x => x.id == gid)
        = some { g with mode := Pac.GhostMode.eaten } ∧
      (Pac.handlePowerPelletEaten fd now S pid).ghostsEatenCombo = 0 := by
  rw [Pac.handleGhostEaten_eq S gid g hg hfr, Pac.handlePowerPelletEaten_eq fd now S pid pp hpp hppf]
  refine ⟨rfl, rfl, ?_, rfl⟩
  exact Pac.updateFirst_find? (fun x => x.id == gid)
    (fun x => { x with mode := Pac.GhostMode.eaten }) (fun x => rfl) S.ghosts g hg

/-- Witness for C1 at a concrete game state with two prior defeats in the
combo: the third defeat is worth 200 by 2 squared, the counter advances to
three, the ghost ends eaten, and a fresh power pickup resets the counter. -/
theorem c1_witness :
    (Pac.handleGhostEaten Pac.SgameA "a").score = 800 ∧
      (Pac.handleGhostEaten Pac.SgameA "a").ghostsEatenCombo = 3 ∧
      (Pac.handleGhostEaten Pac.SgameA "a").ghosts.find? (fun x => x.id == "a")
        = some { Pac.ghostA with mode := Pac.GhostMode.eaten } ∧
      (Pac.handlePowerPelletEaten 7000 1000 Pac.SgameA "pw").ghostsEatenCombo = 0 := by
  have h := c1_frightened_defeat_combo Pac.SgameA 7000 1000 "a" "pw" Pac.ghostA Pac.pelletP
    rfl rfl rfl rfl
  refine ⟨?_, h.2.1, h.2.2.1, h.2.2.2⟩
  rw [h.1]
  norm_num [Pac.SgameA]

/-- C4: whenever the player overlaps an active pursuer, the dispatch runs
the pursuer-defeated path when the pursuer is Frightened (its mode becomes
Eaten through the defeat handler and no life is lost), and otherwise runs
the player-hit path, which decrements lives by one unless the player is
powered up, and drives the round status to Lost in the same step when lives
reach 0. -/
theorem c4_overlap_dispatch (bounds : Pac.Bounds3) (S : Pac.PacGame)
    (g : Pac.GhostState)
    (hov : Real.sqrt ((g.position.x - S.pacman.position.x) ^ 2 +
        (g.position.z - S.pacman.position.z) ^ 2) < S.pacman.radius + g.radius - 0.1)
    (hact : g.isActive = true) (hne : g.mode ≠ Pac.GhostMode.eaten) :
    (g.mode = Pac.GhostMode.frightened →
      Pac.resolveGhostPacmanCollision bounds S g = Pac.handleGhostEaten S g.id ∧
      (S.ghosts.find? (fun x => x.id == g.id) = some g →
        (Pac.resolveGhostPacmanCollision bounds S g).ghosts.find? (fun x => x.id == g.id)
          = some { g with mode := Pac.GhostMode.eaten }) ∧
      (Pac.resolveGhostPacmanCollision bounds S g).lives = S.lives) ∧
    (g.mode ≠ Pac.GhostMode.frightened →
      Pac.resolveGhostPacmanCollision bounds S g = Pac.handlePlayerHit bounds S ∧
      (S.pacman.isPoweredUp = true → Pac.resolveGhostPacmanCollision bounds S g = S) ∧
      (S.pacman.isPoweredUp = false →
        (Pac.resolveGhostPacmanCollision bounds S g).lives = S.lives - 1 ∧
        (S.lives - 1 ≤ 0 →
          (Pac.resolveGhostPacmanCollision bounds S g).gameStatus = Pac.GameStatus.lost))) := by
  have hres : Pac.resolveGhostPacmanCollision bounds S g
      = if g.mode = Pac.GhostMode.frightened then Pac.handleGhostEaten S g.id
        else Pac.handlePlayerHit bounds S := by
    simp only [Pac.resolveGhostPacmanCollision]
    rw [if_pos hov]
  constructor
  · intro hfr
    rw [hres, if_pos hfr]
    refine ⟨rfl, ?_, Pac.handleGhostEaten_lives S g.id⟩
    intro hfind
    rw [Pac.handleGhostEaten_eq S g.id g hfind hfr]
    exact Pac.updateFirst_find? (fun x => x.id == g.id)
      (fun x => { x with mode := Pac.GhostMode.eaten }) (fun x => rfl) S.ghosts g hfind
  · intro hnf
    rw [hres, if_neg hnf]
    refine ⟨rfl, ?_, ?_⟩
    · intro hpow
      simp [Pac.handlePlayerHit, hpow]
    · intro hpow
      simp only [Pac.handlePlayerHit, hpow, Bool.false_eq_true, if_false]
      split_ifs with hl
      · exact ⟨rfl, fun _ => rfl⟩
      · exact ⟨rfl, fun hcontra => absurd hcontra hl⟩

/-- Witness for C4: a concrete frightened ghost overlapping the player is
defeated (mode Eaten, lives untouched), discharging the overlap hypothesis
at distance zero. -/
theorem c4_witness :
    Real.sqrt ((Pac.ghostA.position.x - Pac.SgameA.pacman.position.x) ^ 2 +
        (Pac.ghostA.position.z - Pac.SgameA.pacman.position.z) ^ 2)
      < Pac.SgameA.pacman.radius + Pac.ghostA.radius - 0.1 ∧
    (Pac.resolveGhostPacmanCollision Pac.bounds0 Pac.SgameA Pac.ghostA).ghosts.find?
        (fun x => x.id == "a") = some { Pac.ghostA with mode := Pac.GhostMode.eaten } ∧
    (Pac.resolveGhostPacmanCollision Pac.bounds0 Pac.SgameA Pac.ghostA).lives
      = Pac.SgameA.lives := by
  have hov : Real.sqrt ((Pac.ghostA.position.x - Pac.SgameA.pacman.position.x) ^ 2 +
      (Pac.ghostA.position.z - Pac.SgameA.pacman.position.z) ^ 2)
      < Pac.SgameA.pacman.radius + Pac.ghostA.radius - 0.1 := by
    have : ((Pac.ghostA.position.x - Pac.SgameA.pacman.position.x) ^ 2 +
        (Pac.ghostA.position.z - Pac.SgameA.pacman.position.z) ^ 2) = 0 := by
      norm_num [Pac.ghostA, Pac.SgameA, Pac.pac0]
    rw [this, Real.sqrt_zero]
    norm_num [Pac.ghostA, Pac.SgameA, Pac.pac0]
  have h := c4_overlap_dispatch Pac.bounds0 Pac.SgameA Pac.ghostA hov rfl
    (by simp [Pac.ghostA])
  have h2 := h.1 rfl
  exact ⟨hov, h2.2.1 rfl, h2.2.2⟩

/-- C6: for every active pursuer that is neither Frightened nor Eaten, its
mode after each frame update equals the global elapsed-round-time schedule,
and that schedule is Scatter on 0 to 7 s, Chase on 7 to 27 s, Scatter on 27
to 34 s, Chase on 34 to 54 s, Scatter on 54 to 59 s, and thereafter repeats
every 25 s with 5 s of Scatter followed by 20 s of Chase. -/
theorem c6_mode_schedule (g : Pac.GhostState) (i : ℕ) (pac : Pac.PacmanState)
    (bounds : Pac.Bounds3) (elapsed dt clockTime : ℝ) (ρ : Pac.GhostRand)
    (hact : g.isActive = true ∨ elapsed > g.spawnDelay)
    (hnf : g.mode ≠ Pac.GhostMode.frightened)
    (hne : g.mode ≠ Pac.GhostMode.eaten) :
    (Pac.updateGhostFrame g i pac bounds elapsed dt clockTime ρ).1.mode
      = Pac.ghostModeSchedule (elapsed / 1000) ∧
    ∀ t : ℝ,
      (0 ≤ t → t < 7 → Pac.ghostModeSchedule t = Pac.GhostMode.scatter) ∧
      (7 ≤ t → t < 27 → Pac.ghostModeSchedule t = Pac.GhostMode.chase) ∧
      (27 ≤ t → t < 34 → Pac.ghostModeSchedule t = Pac.GhostMode.scatter) ∧
      (34 ≤ t → t < 54 → Pac.ghostModeSchedule t = Pac.GhostMode.chase) ∧
      (54 ≤ t → t < 59 → Pac.ghostModeSchedule t = Pac.GhostMode.scatter) ∧
      ∀ k : ℕ,
        (59 + 25 * (k : ℝ) ≤ t → t < 59 + 25 * (k : ℝ) + 5 →
          Pac.ghostModeSchedule t = Pac.GhostMode.scatter) ∧
        (59 + 25 * (k : ℝ) + 5 ≤ t → t < 59 + 25 * ((k : ℝ) + 1) →
          Pac.ghostModeSchedule t = Pac.GhostMode.chase) :=
  ⟨Pac.updateGhostFrame_mode_schedule g i pac bounds elapsed dt clockTime ρ hact hnf hne,
   Pac.ghostModeSchedule_spec⟩

/-- Witness for C6: a concrete active chase-mode ghost at ten seconds of
round time ends the frame in the schedule mode, which is Chase. -/
theorem c6_witness :
    (Pac.updateGhostFrame Pac.ghostB 1 Pac.pac0 Pac.bounds0 10000 0.016 3
        Pac.ghostRand0).1.mode = Pac.ghostModeSchedule (10000 / 1000) ∧
      Pac.ghostModeSchedule (10000 / 1000) = Pac.GhostMode.chase := by
  have h := c6_mode_schedule Pac.ghostB 1 Pac.pac0 Pac.bounds0 10000 0.016 3 Pac.ghostRand0
    (Or.inl rfl) (by simp [Pac.ghostB, Pac.ghostA]) (by simp [Pac.ghostB, Pac.ghostA])
  refine ⟨h.1, ?_⟩
  exact ((h.2 (10000 / 1000)).2.1) (by norm_num) (by norm_num)

/-- C9: the combined wander-and-boundary-bias steering vector of an active
pursuer is length-clamped into the interval from half its speed to its
speed, and the clamped vector is what the frame update lerps into the
pursuer velocity before integrating the position. -/
theorem c9_wander_clamped (g : Pac.GhostState) (i : ℕ) (clockTime : ℝ)
    (bounds : Pac.Bounds3) (hs : 0 ≤ g.speed)
    (hw : Pac.vlength (Pac.ghostCombinedWander g i clockTime bounds) ≠ 0) :
    g.speed * 0.5
      ≤ Pac.vlength (Pac.clampLength (Pac.ghostCombinedWander g i clockTime bounds)
          (g.speed * 0.5) g.speed) ∧
    Pac.vlength (Pac.clampLength (Pac.ghostCombinedWander g i clockTime bounds)
        (g.speed * 0.5) g.speed) ≤ g.speed ∧
    ∀ dt : ℝ, (Pac.ghostApplyWander g i clockTime dt bounds).velocity
      = Pac.vlerp g.velocity
          (Pac.clampLength (Pac.ghostCombinedWander g i clockTime bounds)
            (g.speed * 0.5) g.speed)
          (if g.mode = Pac.GhostMode.frightened then 0.15 else 0.12) := by
  have h0 : (0 : ℝ) ≤ g.speed * 0.5 := by linarith
  have hc := Pac.vlength_clampLength (Pac.ghostCombinedWander g i clockTime bounds)
    (g.speed * 0.5) g.speed h0 hw
  refine ⟨?_, ?_, fun dt => Pac.ghostApplyWander_velocity g i clockTime dt bounds⟩
  · rw [hc]
    exact le_max_left _ _
  · rw [hc]
    apply max_le
    · linarith
    · exact min_le_left _ _

/-- Witness for C9 at a concrete ghost of speed ten whose combined wander
vector evaluates to the x-axis vector of length three: the clamped steering
magnitude lies between five and ten, and the frame applies it through the
velocity lerp. -/
theorem c9_witness :
    Pac.ghostW.speed * 0.5
      ≤ Pac.vlength (Pac.clampLength (Pac.ghostCombinedWander Pac.ghostW 0 0 Pac.bounds0)
          (Pac.ghostW.speed * 0.5) Pac.ghostW.speed) ∧
    Pac.vlength (Pac.clampLength (Pac.ghostCombinedWander Pac.ghostW 0 0 Pac.bounds0)
        (Pac.ghostW.speed * 0.5) Pac.ghostW.speed) ≤ Pac.ghostW.speed ∧
    (Pac.ghostApplyWander Pac.ghostW 0 0 0.016 Pac.bounds0).velocity
      = Pac.vlerp Pac.ghostW.velocity
          (Pac.clampLength (Pac.ghostCombinedWander Pac.ghostW 0 0 Pac.bounds0)
            (Pac.ghostW.speed * 0.5) Pac.ghostW.speed)
          (if Pac.ghostW.mode = Pac.GhostMode.frightened then 0.15 else 0.12) := by
  have hwv : Pac.ghostCombinedWander Pac.ghostW 0 0 Pac.bounds0 = ⟨3, 0, 0⟩ := by
    simp [Pac.ghostCombinedWander, Pac.ghostW, Pac.ghostA, Pac.bounds0,
      Real.sin_zero, Real.cos_zero]
    norm_num
  have hlen : Pac.vlength (⟨3, 0, 0⟩ : Pac.Vec3) = 3 := by
    simp only [Pac.vlength, Pac.vlengthSq]
    rw [show (3 : ℝ) * 3 + 0 * 0 + 0 * 0 = 3 ^ 2 by norm_num]
    exact Real.sqrt_sq (by norm_num)
  have hw : Pac.vlength (Pac.ghostCombinedWander Pac.ghostW 0 0 Pac.bounds0) ≠ 0 := by
    rw [hwv, hlen]
    norm_num
  have h := c9_wander_clamped Pac.ghostW 0 0 Pac.bounds0
    (by norm_num [Pac.ghostW, Pac.ghostA]) hw
  exact ⟨h.1, h.2.1, h.2.2 0.016⟩

/-- Counterexample for C7: the player-hit handler is none of the transitions
allowed by the claim (it is not the schedule, not a power pickup, not a
defeat while Frightened and not an eaten-respawn), yet on a concrete
running game with one chase-mode ghost, three lives and no power-up it
changes that ghost's mode to Scatter without ending the round. -/
theorem c7_counterexample :
    Pac.SgameB.ghosts.map (fun g => g.mode) = [Pac.GhostMode.chase] ∧
    Pac.SgameB.pacman.isPoweredUp = false ∧
    (Pac.handlePlayerHit Pac.bounds0 Pac.SgameB).gameStatus = Pac.GameStatus.playing ∧
    (Pac.handlePlayerHit Pac.bounds0 Pac.SgameB).ghosts.map (fun g => g.mode)
      = [Pac.GhostMode.scatter] :=
  ⟨rfl, rfl, rfl, rfl⟩

/-- C7 as amended: a power pickup instantaneously sets every active
non-Eaten pursuer to Frightened at half base speed; window expiry reverts
every Frightened pursuer to Chase at base speed; and a pursuer's mode
changes only through the frame schedule or the explicit triggers — power
pickup, defeat while Frightened (set to Eaten, though the same frame's
schedule assignment overwrites it), eaten-respawn (Chase or Frightened by
the power state), window expiry, and the player-hit reset that sets every
pursuer to Scatter when a life is lost with lives remaining; the pellet
handler never touches a mode. -/
theorem c7_mode_triggers :
    (∀ (fd now : ℝ) (S : Pac.PacGame) (pid : String) (pp : Pac.PowerPelletState),
        S.powerPellets.find? (fun x => x.id == pid) = some pp → pp.isEaten = false →
        (Pac.handlePowerPelletEaten fd now S pid).ghosts
          = S.ghosts.map (fun g =>
              if g.isActive ∧ g.mode ≠ Pac.GhostMode.eaten then
                { g with mode := Pac.GhostMode.frightened, speed := g.baseSpeed * 0.5 }
              else g)) ∧
    (∀ (S : Pac.PacGame) (now : ℝ),
        S.pacman.isPoweredUp = true → now > S.pacman.powerUpEndTime →
        (Pac.powerExpiryCheck S now).pacman.isPoweredUp = false ∧
        (Pac.powerExpiryCheck S now).ghosts
          = S.ghosts.map (fun g =>
              if g.mode = Pac.GhostMode.frightened then
                { g with mode := Pac.GhostMode.chase, speed := g.baseSpeed }
              else g)) ∧
    (∀ (S : Pac.PacGame) (pid : String), (Pac.handlePelletEaten S pid).ghosts = S.ghosts) ∧
    (∀ (S : Pac.PacGame) (gid : String) (g : Pac.GhostState),
        S.ghosts.find? (fun x => x.id == gid) = some g →
        ∀ x ∈ (Pac.handleGhostEaten S gid).ghosts,
          x ∈ S.ghosts ∨ x = { g with mode := Pac.GhostMode.eaten }) ∧
    (∀ (bounds : Pac.Bounds3) (S : Pac.PacGame) (gid : String) (g : Pac.GhostState)
        (angle : ℝ),
        S.ghosts.find? (fun x => x.id == gid) = some g →
        ∀ x ∈ (Pac.ghostRespawnAfterEaten bounds S gid angle).ghosts,
          x ∈ S.ghosts ∨ x.mode
            = (if S.pacman.isPoweredUp then Pac.GhostMode.frightened
               else Pac.GhostMode.chase)) ∧
    (∀ (bounds : Pac.Bounds3) (S : Pac.PacGame),
        (S.pacman.isPoweredUp = true → Pac.handlePlayerHit bounds S = S) ∧
        (S.pacman.isPoweredUp = false → S.lives - 1 ≤ 0 →
          (Pac.handlePlayerHit bounds S).ghosts = S.ghosts) ∧
        (S.pacman.isPoweredUp = false → 0 < S.lives - 1 →
          ∀ x ∈ (Pac.handlePlayerHit bounds S).ghosts,
            x.mode = Pac.GhostMode.scatter)) ∧
    (∀ (g : Pac.GhostState) (i : ℕ) (pac : Pac.PacmanState) (bounds : Pac.Bounds3)
        (elapsed dt clockTime : ℝ) (ρ : Pac.GhostRand),
        (Pac.updateGhostFrame g i pac bounds elapsed dt clockTime ρ).1.mode = g.mode ∨
        (Pac.updateGhostFrame g i pac bounds elapsed dt clockTime ρ).1.mode
          = Pac.ghostModeSchedule (elapsed / 1000)) := by
  refine ⟨?_, ?_, ?_, ?_, ?_, ?_, ?_⟩
  · intro fd now S pid pp hpp hf
    rw [Pac.handlePowerPelletEaten_eq fd now S pid pp hpp hf]
  · intro S now h1 h2
    simp only [Pac.powerExpiryCheck]
    rw [if_pos ⟨h1, h2⟩]
    exact ⟨rfl, rfl⟩
  · intro S pid
    simp only [Pac.handlePelletEaten]
    cases h : S.pellets.find? (fun p => p.id == pid) with
    | none => rfl
    | some p =>
      dsimp only
      split_ifs <;> rfl
  · intro S gid g hg x hx
    simp only [Pac.handleGhostEaten, hg] at hx
    split_ifs at hx with hmode
    · exact Or.inl hx
    · exact Pac.mem_updateFirst_of_find? _ _ S.ghosts g hg x hx
  · intro bounds S gid g angle hg x hx
    simp only [Pac.ghostRespawnAfterEaten] at hx
    rcases Pac.mem_updateFirst_of_find? _ _ S.ghosts g hg x hx with h | h
    · exact Or.inl h
    · subst h
      exact Or.inr rfl
  · intro bounds S
    refine ⟨?_, ?_, ?_⟩
    · intro h
      simp [Pac.handlePlayerHit, h]
    · intro h hl
      simp only [Pac.handlePlayerHit, h, Bool.false_eq_true, if_false]
      rw [if_pos hl]
    · intro h hl x hx
      simp only [Pac.handlePlayerHit, h, Bool.false_eq_true, if_false] at hx
      rw [if_neg (by linarith)] at hx
      rcases List.mem_map.mp hx with ⟨p, _, rfl⟩
      rfl
  · intro g i pac bounds elapsed dt clockTime ρ
    simp only [Pac.updateGhostFrame]
    set gact := if ¬ g.isActive ∧ elapsed > g.spawnDelay then { g with isActive := true }
      else g with hgact
    have hMode : gact.mode = g.mode := by
      rw [hgact]
      split_ifs <;> rfl
    by_cases hskip : ¬ gact.isActive ∨ gact.mode = Pac.GhostMode.eaten
    · rw [if_pos hskip]
      exact Or.inl hMode
    · rw [if_neg hskip]
      have h2 : (Pac.ghostApplyWander (Pac.ghostDecideVelocity gact i pac bounds dt ρ) i
          clockTime dt bounds).mode = g.mode := by
        rw [Pac.ghostApplyWander_mode, Pac.ghostDecideVelocity_mode, hMode]
      split_ifs <;> first | (right; rfl) | (left; simp_all)

/-- Witness for C7 at concrete states: a fresh power pickup frightens the
ghosts through the map characterization, the pellet handler leaves ghosts
untouched, and a player hit while powered up changes nothing. -/
theorem c7_witness :
    (Pac.handlePowerPelletEaten 7000 1000 Pac.SgameA "pw").ghosts
      = Pac.SgameA.ghosts.map (fun g =>
          if g.isActive ∧ g.mode ≠ Pac.GhostMode.eaten then
            { g with mode := Pac.GhostMode.frightened, speed := g.baseSpeed * 0.5 }
          else g) ∧
    (Pac.handlePelletEaten Pac.SgameA "x").ghosts = Pac.SgameA.ghosts ∧
    Pac.handlePlayerHit Pac.bounds0 Pac.SgameC = Pac.SgameC := by
  refine ⟨c7_mode_triggers.1 7000 1000 Pac.SgameA "pw" Pac.pelletP rfl rfl,
    c7_mode_triggers.2.2.1 Pac.SgameA "x",
    (c7_mode_triggers.2.2.2.2.2.1 Pac.bounds0 Pac.SgameC).1 rfl⟩

/-- C5: a paused engine state is returned unchanged except for the stored
last-seen timestamp, and iterating the step any number of times while
paused changes nothing but that timestamp. -/
theorem c5_paused_idempotent (s : Marco.EngineState) (k : Marco.KeyboardState)
    (o : Marco.EngineRand) (h : s.gameState.isPaused = true) :
    (∀ t : ℝ, Marco.updateEngine s k t o = ({ s with lastTimestamp := t }, [])) ∧
    ∀ ts : List ℝ,
      ts.foldl (fun st u => (Marco.updateEngine st k u o).1) s
        = { s with lastTimestamp := ts.foldl (fun _ u => u) s.lastTimestamp } := by
  have key : ∀ (ts : List ℝ) (s2 : Marco.EngineState), s2.gameState.isPaused = true →
      ts.foldl (fun st u => (Marco.updateEngine st k u o).1) s2
        = { s2 with lastTimestamp := ts.foldl (fun _ u => u) s2.lastTimestamp } := by
    intro ts
    induction ts with
    | nil => intro s2 _; rfl
    | cons u rest ih =>
      intro s2 hp2
      rw [List.foldl_cons, List.foldl_cons]
      have h1 : (Marco.updateEngine s2 k u o).1 = { s2 with lastTimestamp := u } := by
        rw [Marco.updateEngine_paused s2 k u o hp2]
      rw [h1, ih { s2 with lastTimestamp := u } hp2]
  exact ⟨fun t => Marco.updateEngine_paused s k t o h, fun ts => key ts s h⟩

/-- Witness for C5: a concrete paused state stepped twice keeps its player,
fish, score and timer, tracking only the final timestamp. -/
theorem c5_witness :
    Marco.engineC5.gameState.isPaused = true ∧
    Marco.updateEngine Marco.engineC5 Marco.keys0 1100 Marco.oracle0
      = ({ Marco.engineC5 with lastTimestamp := 1100 }, []) ∧
    [(1100 : ℝ), 1200].foldl (fun st u => (Marco.updateEngine st Marco.keys0 u Marco.oracle0).1)
        Marco.engineC5
      = { Marco.engineC5 with lastTimestamp := 1200 } := by
  have h := c5_paused_idempotent Marco.engineC5 Marco.keys0 Marco.oracle0 rfl
  refine ⟨rfl, h.1 1100, ?_⟩
  have h2 := h.2 [(1100 : ℝ), 1200]
  simpa using h2

/-- C3: when the clamped delta exhausts the remaining time on a non-paused
state, the step sets the screen to game over, emits exactly the timeout
game-over event, and mutates nothing else this call: player, fish, score,
caught count, effects and combo are unchanged, the timer is left at zero
and the last timestamp is recorded. -/
theorem c3_timeout_game_over (s : Marco.EngineState) (k : Marco.KeyboardState)
    (t : ℝ) (o : Marco.EngineRand)
    (hp : s.gameState.isPaused = false)
    (hto : s.gameState.timeRemaining - Marco.clampedDeltaOf s t ≤ 0) :
    (Marco.updateEngine s k t o).1.gameState.screen = Marco.GameScreen.gameOver ∧
    (Marco.updateEngine s k t o).2
      = [Marco.GameEvent.gameOver Marco.GameOverReason.timeout] ∧
    (Marco.updateEngine s k t o).1.player = s.player ∧
    (Marco.updateEngine s k t o).1.fish = s.fish ∧
    (Marco.updateEngine s k t o).1.gameState.score = s.gameState.score ∧
    (Marco.updateEngine s k t o).1.gameState.fishCaught = s.gameState.fishCaught ∧
    (Marco.updateEngine s k t o).1.effects = s.effects ∧
    (Marco.updateEngine s k t o).1.comboCount = s.comboCount ∧
    (Marco.updateEngine s k t o).1.gameState.timeRemaining = 0 ∧
    (Marco.updateEngine s k t o).1.lastTimestamp = t := by
  have heq : Marco.updateEngine s k t o
      = ({ s with
            previousPlayerPosition := s.player.position,
            gameState := { s.gameState with
              timeRemaining := max 0 (s.gameState.timeRemaining - Marco.clampedDeltaOf s t),
              screen := Marco.GameScreen.gameOver },
            lastTimestamp := t },
         [Marco.GameEvent.gameOver Marco.GameOverReason.timeout]) := by
    simp only [Marco.updateEngine, hp, Bool.false_eq_true, if_false]
    rw [if_pos (show max 0 (s.gameState.timeRemaining - Marco.clampedDeltaOf s t) ≤ 0 by
      rw [max_le_iff]
      exact ⟨le_refl 0, hto⟩)]
  rw [heq]
  refine ⟨rfl, rfl, rfl, rfl, rfl, rfl, rfl, rfl, ?_, rfl⟩
  exact max_eq_left hto

/-- Witness for C3 at the documented fixture: remaining time 0.001 with a
clamped delta of 0.1 ends the round by timeout without touching player,
fish or score. -/
theorem c3_witness :
    Marco.engineC3.gameState.isPaused = false ∧
    Marco.engineC3.gameState.timeRemaining - Marco.clampedDeltaOf Marco.engineC3 1100 ≤ 0 ∧
    (Marco.updateEngine Marco.engineC3 Marco.keys0 1100 Marco.oracle0).1.gameState.screen
      = Marco.GameScreen.gameOver ∧
    (Marco.updateEngine Marco.engineC3 Marco.keys0 1100 Marco.oracle0).2
      = [Marco.GameEvent.gameOver Marco.GameOverReason.timeout] ∧
    (Marco.updateEngine Marco.engineC3 Marco.keys0 1100 Marco.oracle0).1.player
      = Marco.engineC3.player ∧
    (Marco.updateEngine Marco.engineC3 Marco.keys0 1100 Marco.oracle0).1.fish
      = Marco.engineC3.fish ∧
    (Marco.updateEngine Marco.engineC3 Marco.keys0 1100 Marco.oracle0).1.gameState.score
      = Marco.engineC3.gameState.score ∧
    (Marco.updateEngine Marco.engineC3 Marco.keys0 1100 Marco.oracle0).1.gameState.timeRemaining
      = 0 := by
  have hto : Marco.engineC3.gameState.timeRemaining
      - Marco.clampedDeltaOf Marco.engineC3 1100 ≤ 0 := by
    norm_num [Marco.engineC3, Marco.engine0, Marco.gs0, Marco.clampedDeltaOf,
      Marco.deltaTimeOf, min_def]
  have h := c3_timeout_game_over Marco.engineC3 Marco.keys0 1100 Marco.oracle0 rfl hto
  exact ⟨rfl, hto, h.1, h.2.1, h.2.2.1, h.2.2.2.1, h.2.2.2.2.1, h.2.2.2.2.2.2.2.2.1⟩

/-- Counterexample for C2: on a concrete non-paused state with a recorded
previous timestamp of 1000, stepping with the earlier timestamp 500 (a
negative delta) does not leave the round timer as though no time elapsed:
the timer changes (it grows by half a second). -/
theorem c2_counterexample :
    (500 : ℝ) < Marco.engine0.lastTimestamp ∧
    Marco.engine0.gameState.isPaused = false ∧
    (Marco.updateEngine Marco.engine0 Marco.keys0 500 Marco.oracle0).1.gameState.timeRemaining
      ≠ Marco.engine0.gameState.timeRemaining := by
  refine ⟨by norm_num [Marco.engine0], rfl, ?_⟩
  rw [Marco.updateEngine_timeRemaining _ _ _ _ rfl]
  norm_num [Marco.engine0, Marco.gs0, Marco.clampedDeltaOf, Marco.deltaTimeOf,
    min_def, max_def]

/-- C2 as amended: `updateEngine` clamps the delta only from above
(`Math.min(deltaTime, 0.1)`), so a negative delta is not treated as zero: it
flows through unchanged and the round timer grows by the magnitude of the
delta instead of staying put (the call, a total function here, still
completes without raising). -/
theorem c2_negative_delta (s : Marco.EngineState) (k : Marco.KeyboardState)
    (t : ℝ) (o : Marco.EngineRand)
    (hp : s.gameState.isPaused = false) (hl : s.lastTimestamp ≠ 0)
    (hneg : t < s.lastTimestamp) (htr : 0 ≤ s.gameState.timeRemaining) :
    Marco.clampedDeltaOf s t = (t - s.lastTimestamp) / 1000 ∧
    Marco.clampedDeltaOf s t < 0 ∧
    (Marco.updateEngine s k t o).1.gameState.timeRemaining
      = s.gameState.timeRemaining + (s.lastTimestamp - t) / 1000 ∧
    s.gameState.timeRemaining
      < (Marco.updateEngine s k t o).1.gameState.timeRemaining := by
  have hd0 : (t - s.lastTimestamp) / 1000 < 0 :=
    div_neg_of_neg_of_pos (by linarith) (by norm_num)
  have hdc : Marco.clampedDeltaOf s t = (t - s.lastTimestamp) / 1000 := by
    rw [Marco.clampedDeltaOf, Marco.deltaTimeOf, if_neg hl]
    apply min_eq_left
    linarith
  have htime := Marco.updateEngine_timeRemaining s k t o hp
  have hpos : 0 < (s.lastTimestamp - t) / 1000 :=
    div_pos (by linarith) (by norm_num)
  have hmax : max 0 (s.gameState.timeRemaining - Marco.clampedDeltaOf s t)
      = s.gameState.timeRemaining + (s.lastTimestamp - t) / 1000 := by
    rw [hdc, max_eq_right (by linarith)]
    ring
  refine ⟨hdc, by rw [hdc]; exact hd0, ?_, ?_⟩
  · rw [htime, hmax]
  · rw [htime, hmax]
    linarith

/-- Witness for C2 as amended: at the concrete negative-delta call the timer
formula evaluates through the theorem. -/
theorem c2_witness :
    Marco.engine0.gameState.isPaused = false ∧
    Marco.engine0.lastTimestamp ≠ 0 ∧
    (500 : ℝ) < Marco.engine0.lastTimestamp ∧
    (0 : ℝ) ≤ Marco.engine0.gameState.timeRemaining ∧
    (Marco.updateEngine Marco.engine0 Marco.keys0 500 Marco.oracle0).1.gameState.timeRemaining
      = Marco.engine0.gameState.timeRemaining + (Marco.engine0.lastTimestamp - 500) / 1000 := by
  refine ⟨rfl, by norm_num [Marco.engine0], by norm_num [Marco.engine0],
    by norm_num [Marco.engine0, Marco.gs0], ?_⟩
  exact (c2_negative_delta Marco.engine0 Marco.keys0 500 Marco.oracle0 rfl
    (by norm_num [Marco.engine0]) (by norm_num [Marco.engine0])
    (by norm_num [Marco.engine0, Marco.gs0])).2.2.1

/-- C8: once a fish's caught flag is true it is terminal: the collision
check excludes it, no subsequent engine step emits a catch event for its id,
and the flag never becomes false through a step. -/
theorem c8_caught_terminal (s : Marco.EngineState) (k : Marco.KeyboardState)
    (t : ℝ) (o : Marco.EngineRand) (i : String)
    (h : Marco.CaughtAt s.fish i) :
    Marco.CaughtAt (Marco.updateEngine s k t o).1.fish i ∧
    (∀ p, Marco.GameEvent.fishCaught i p ∉ (Marco.updateEngine s k t o).2) ∧
    (∀ (player : Marco.PlayerState) (f : Marco.FishState), f.isCaught = true →
      Marco.checkPlayerFishCollision player f = false) :=
  ⟨(Marco.updateEngine_caughtAt s k t o i h).1,
   (Marco.updateEngine_caughtAt s k t o i h).2,
   fun player f hf => Marco.checkPlayerFishCollision_caught player f hf⟩

/-- Witness for C8 at a concrete state holding one caught and one uncaught
fish: the caught id stays caught through a step and no catch event carries
it. -/
theorem c8_witness :
    Marco.CaughtAt Marco.engineC8.fish "f2" ∧
    Marco.CaughtAt
      (Marco.updateEngine Marco.engineC8 Marco.keys0 1100 Marco.oracle0).1.fish "f2" ∧
    ∀ p, Marco.GameEvent.fishCaught "f2" p
      ∉ (Marco.updateEngine Marco.engineC8 Marco.keys0 1100 Marco.oracle0).2 := by
  have hca : Marco.CaughtAt Marco.engineC8.fish "f2" := by
    intro f hf hid
    rcases List.mem_cons.mp hf with rfl | hf2
    · rfl
    · rw [List.mem_singleton] at hf2
      subst hf2
      exact absurd hid (by decide)
  have h := c8_caught_terminal Marco.engineC8 Marco.keys0 1100 Marco.oracle0 "f2" hca
  exact ⟨hca, h.1, h.2.1⟩

/-- C10: in the Marco variant a catch awards
floor(basePoints * min(1 + 0.5 * comboCount, 3) * (1 + 2 * timeRemaining /
gameDuration)) points — the catch-combo multiplier grows linearly by 0.5
per consecutive catch capped at 3 and a time-remaining bonus scales every
catch — the combo counter advances with the catch, and the counter resets
to 0 once more than 5000 ms pass without a catch. -/
theorem c10_catch_scoring (s : Marco.EngineState) (t : ℝ) (o : Marco.EngineRand)
    (f : Marco.FishState) (hf : s.fish = [f]) (hnc : f.isCaught = false)
    (hcol : Marco.checkPlayerFishCollision s.player f = true) :
    ((Marco.checkFishCatches s t o).1.gameState.score
        = s.gameState.score +
          ((⌊Marco.getFishPoints f * min (1 + 0.5 * (s.comboCount : ℝ)) 3 *
              (1 + 2 * (s.gameState.timeRemaining / s.config.gameDuration))⌋ : ℤ) : ℝ)) ∧
    (Marco.checkFishCatches s t o).1.comboCount = s.comboCount + 1 ∧
    (Marco.checkFishCatches s t o).1.lastCatchTime = t ∧
    (Marco.checkFishCatches s t o).1.fish = [Marco.catchFish f] ∧
    (Marco.checkFishCatches s t o).2
      = [Marco.GameEvent.fishCaught f.id
           ((⌊Marco.getFishPoints f * min (1 + 0.5 * (s.comboCount : ℝ)) 3 *
               (1 + 2 * (s.gameState.timeRemaining / s.config.gameDuration))⌋ : ℤ) : ℝ),
         Marco.GameEvent.scoreUpdated (s.gameState.score +
           ((⌊Marco.getFishPoints f * min (1 + 0.5 * (s.comboCount : ℝ)) 3 *
               (1 + 2 * (s.gameState.timeRemaining / s.config.gameDuration))⌋ : ℤ) : ℝ))] ∧
    ∀ (s2 : Marco.EngineState), t - s2.lastCatchTime > 5000 →
      (Marco.applyComboTimeout s2 t).comboCount = 0 := by
  have harg : Marco.getFishPoints f *
        min (1 + (s.comboCount : ℝ) * Marco.SCORING.comboMultiplier)
          Marco.SCORING.maxComboMultiplier *
        (1 + s.gameState.timeRemaining / s.config.gameDuration *
          Marco.SCORING.speedBonusMultiplier)
      = Marco.getFishPoints f * min (1 + 0.5 * (s.comboCount : ℝ)) 3 *
        (1 + 2 * (s.gameState.timeRemaining / s.config.gameDuration)) := by
    rw [Marco.SCORING.comboMultiplier, Marco.SCORING.maxComboMultiplier,
      Marco.SCORING.speedBonusMultiplier, mul_comm (s.comboCount : ℝ) (0.5 : ℝ),
      mul_comm (s.gameState.timeRemaining / s.config.gameDuration) (2 : ℝ)]
  have key : Marco.checkFishCatches s t o
      = ({ s with
            fish := [Marco.catchFish f],
            gameState := { s.gameState with
              score := s.gameState.score +
                ((⌊Marco.getFishPoints f * min (1 + 0.5 * (s.comboCount : ℝ)) 3 *
                    (1 + 2 * (s.gameState.timeRemaining / s.config.gameDuration))⌋ : ℤ) : ℝ),
              fishCaught := s.gameState.fishCaught + 1 },
            comboCount := s.comboCount + 1,
            lastCatchTime := t,
            effects := Marco.addScorePopup
              (Marco.addRipple (Marco.addCatchParticles s.effects (o.catchParticles 0))
                f.position t (o.catchRippleId 0))
              f.position
              ((⌊Marco.getFishPoints f * min (1 + 0.5 * (s.comboCount : ℝ)) 3 *
                  (1 + 2 * (s.gameState.timeRemaining / s.config.gameDuration))⌋ : ℤ) : ℝ)
              t (o.popupId 0) },
         [Marco.GameEvent.fishCaught f.id
            ((⌊Marco.getFishPoints f * min (1 + 0.5 * (s.comboCount : ℝ)) 3 *
                (1 + 2 * (s.gameState.timeRemaining / s.config.gameDuration))⌋ : ℤ) : ℝ),
          Marco.GameEvent.scoreUpdated (s.gameState.score +
            ((⌊Marco.getFishPoints f * min (1 + 0.5 * (s.comboCount : ℝ)) 3 *
                (1 + 2 * (s.gameState.timeRemaining / s.config.gameDuration))⌋ : ℤ) : ℝ))]) := by
    rw [Marco.checkFishCatches, hf]
    simp only [Marco.catchesGo]
    rw [if_neg (by simp [hnc]), if_pos hcol]
    simp only [Marco.catchesGo, harg, List.nil_append]
  rw [key]
  refine ⟨rfl, rfl, rfl, rfl, rfl, ?_⟩
  intro s2 h2
  simp only [Marco.applyComboTimeout, Marco.SCORING.comboDuration]
  rw [if_pos h2]

/-- Witness for C10: a concrete medium fish caught at the player position
with no combo and a full timer scores floor(100 * 1 * 3) = 300 points, the
combo advances to one, and a five-second catch gap resets the counter. -/
theorem c10_witness :
    Marco.engineC10.fish = [Marco.fishC] ∧
    Marco.checkPlayerFishCollision Marco.engineC10.player Marco.fishC = true ∧
    (Marco.checkFishCatches Marco.engineC10 9999 Marco.oracle0).1.gameState.score = 300 ∧
    (Marco.checkFishCatches Marco.engineC10 9999 Marco.oracle0).1.comboCount = 1 ∧
    (Marco.applyComboTimeout Marco.engine0 9999).comboCount = 0 := by
  have hcol : Marco.checkPlayerFishCollision Marco.engineC10.player Marco.fishC = true := by
    simp only [Marco.checkPlayerFishCollision, Marco.circlesCollide, Marco.engineC10,
      Marco.engine0, Marco.player0, Marco.fishC, Marco.fishA, Marco.vecDistanceSq,
      Marco.vecMagnitudeSq, Marco.vecSub]
    norm_num
  have h := c10_catch_scoring Marco.engineC10 9999 Marco.oracle0 Marco.fishC rfl rfl hcol
  refine ⟨rfl, hcol, ?_, h.2.1, h.2.2.2.2.2 Marco.engine0 (by norm_num [Marco.engine0])⟩
  rw [h.1]
  have hfloor : (⌊Marco.getFishPoints Marco.fishC *
      min (1 + 0.5 * (Marco.engineC10.comboCount : ℝ)) 3 *
      (1 + 2 * (Marco.engineC10.gameState.timeRemaining /
        Marco.engineC10.config.gameDuration))⌋ : ℤ) = 300 := by
    have harg : Marco.getFishPoints Marco.fishC *
        min (1 + 0.5 * (Marco.engineC10.comboCount : ℝ)) 3 *
        (1 + 2 * (Marco.engineC10.gameState.timeRemaining /
          Marco.engineC10.config.gameDuration)) = 300 := by
      norm_num [Marco.getFishPoints, Marco.fishC, Marco.fishA, Marco.FISH.sizesPoints,
        Marco.engineC10, Marco.engine0, Marco.gs0, Marco.configMedium, min_def]
    rw [harg]
    rw [show (300 : ℝ) = ((300 : ℤ) : ℝ) by norm_num]
    exact Int.floor_intCast 300
  rw [hfloor]
  norm_num [Marco.engineC10, Marco.engine0, Marco.gs0]
